import Mathlib

/-!
Verification development for the dialogue-flow engine of `src/ai_engine.py`
(rule-driven technical-support chatbot).

The embedding is executable and follows the source closely:

* Python floats: every number the engine computes is an exact dyadic-free
  rational, so scores are modelled as `ℚ`.  Concrete evaluation must reduce
  inside the kernel, therefore the embedded code uses `mkRat`-based operations
  (`qAdd`, `qMul`, `qDivN`, `pyMax`, `pyMin`); bridge lemmas identify them with
  the ordinary `ℚ` operations for use in algebraic proofs.
* Python strings: text processing is performed on `List Char` with structural
  recursion (`String.map`/`String.trim`/`String.split` are not kernel
  reducible).  `str.lower` and the `\w` class of `re` are modelled on the
  alphabet the engine manipulates (ASCII plus the accented Latin letters
  appearing in the data).
* Python dicts: insertion-ordered association lists; `dict` assignment
  replaces in place, `del` removes.
* Python exceptions: functions that can raise an uncaught exception return an
  `Option`, `none` being the escaped exception.
-/

set_option maxRecDepth 8000

namespace AiEngine

/-! ### Executable rational arithmetic

`mkRat` and the `Rat` field projections reduce in the kernel, while the `Rat`
arithmetic operations do not; the engine is therefore written with the
following operations, provably equal to the ordinary ones. -/

/-- Executable addition on `ℚ`. -/
def qAdd (a b : ℚ) : ℚ := mkRat (a.num * b.den + b.num * a.den) (a.den * b.den)

/-- Executable multiplication on `ℚ`. -/
def qMul (a b : ℚ) : ℚ := mkRat (a.num * b.num) (a.den * b.den)

/-- Executable division of a rational by a natural number (every division the
engine performs has a natural-number divisor). -/
def qDivN (a : ℚ) (d : Nat) : ℚ := mkRat a.num (a.den * d)

/-- Executable cast of a natural number into `ℚ`. -/
def qOfNat (n : Nat) : ℚ := mkRat n 1

/-- Python `max` on two scores: returns the second argument only when it is
strictly greater. -/
def pyMax (a b : ℚ) : ℚ := if a < b then b else a

/-- Python `min` on two scores: returns the second argument only when it is
strictly smaller. -/
def pyMin (a b : ℚ) : ℚ := if b < a then b else a

theorem qAdd_eq (a b : ℚ) : qAdd a b = a + b := (Rat.add_def' a b).symm

theorem qMul_eq (a b : ℚ) : qMul a b = a * b := by
  rw [qMul, Rat.mul_def, Rat.normalize_eq_mkRat]

theorem qDivN_eq (a : ℚ) (d : Nat) : qDivN a d = a / (d : ℚ) := by
  rw [qDivN, Rat.mkRat_eq_divInt, Rat.divInt_eq_div]
  push_cast
  rw [← div_div, Rat.num_div_den]

theorem qOfNat_eq (n : Nat) : qOfNat n = (n : ℚ) := by
  rw [qOfNat, Rat.mkRat_eq_divInt, Rat.divInt_eq_div]
  simp

theorem pyMax_eq (a b : ℚ) : pyMax a b = max a b := by
  rw [pyMax, max_comm]
  rcases lt_or_ge a b with h | h
  · rw [if_pos h, max_eq_left h.le]
  · rw [if_neg (not_lt.mpr h), max_eq_right h]

theorem pyMin_eq (a b : ℚ) : pyMin a b = min a b := by
  rw [pyMin, min_comm]
  rcases lt_or_ge b a with h | h
  · rw [if_pos h, min_eq_left h.le]
  · rw [if_neg (not_lt.mpr h), min_eq_right h]

/-! ### Text processing (`AdvancedNLPEngine.preprocess_text`) -/

/-- Python `str.lower`, modelled on the alphabet the engine manipulates:
ASCII letters and the accented Latin letters appearing in the data. -/
def pyLower (c : Char) : Char :=
  if c.isUpper then c.toLower
  else if c = 'Á' then 'á' else if c = 'À' then 'à' else if c = 'Â' then 'â'
  else if c = 'Ã' then 'ã' else if c = 'É' then 'é' else if c = 'Ê' then 'ê'
  else if c = 'Í' then 'í' else if c = 'Ó' then 'ó' else if c = 'Ô' then 'ô'
  else if c = 'Õ' then 'õ' else if c = 'Ú' then 'ú' else if c = 'Ü' then 'ü'
  else if c = 'Ç' then 'ç' else if c = 'Ñ' then 'ñ' else c

/-- The fixed accent-folding table of `preprocess_text` (lines 76-79 of the
source), applied after lowering. -/
def stripAccent (c : Char) : Char :=
  if c = 'ã' ∨ c = 'á' ∨ c = 'à' ∨ c = 'â' then 'a'
  else if c = 'é' ∨ c = 'ê' then 'e'
  else if c = 'í' then 'i'
  else if c = 'ó' ∨ c = 'ô' ∨ c = 'õ' then 'o'
  else if c = 'ú' ∨ c = 'ü' then 'u'
  else if c = 'ç' then 'c'
  else if c = 'ñ' then 'n'
  else c

/-- The `\w` class of `re.sub(r'[^\w\s]', ' ', text)`, on the engine's
alphabet: alphanumeric or underscore. -/
def isWordChar (c : Char) : Bool := c.isAlphanum || c = '_'

/-- Python `str.split()` with no argument: maximal runs of non-whitespace,
no empty tokens.  `cur` is the reversed current token. -/
def splitWhitespaceAux (cur : List Char) : List Char → List (List Char)
  | [] => if cur.isEmpty then [] else [cur.reverse]
  | c :: rest =>
    if c.isWhitespace then
      if cur.isEmpty then splitWhitespaceAux [] rest
      else cur.reverse :: splitWhitespaceAux [] rest
    else splitWhitespaceAux (c :: cur) rest

/-- Python `str.split()` with no argument. -/
def splitWhitespace (cs : List Char) : List (List Char) := splitWhitespaceAux [] cs

/-- Python `str.strip()`. -/
def trimChars (cs : List Char) : List Char :=
  ((cs.dropWhile Char.isWhitespace).reverse.dropWhile Char.isWhitespace).reverse

/-- `message.lower().strip()` as performed on user replies. -/
def lowerStrip (s : String) : String := String.mk (trimChars (s.data.map pyLower))

/-- Python substring containment: `needle in hay`. -/
def containsSub (needle : List Char) : List Char → Bool
  | [] => needle.isEmpty
  | c :: rest => needle.isPrefixOf (c :: rest) || containsSub needle rest

/-- Python `needle in hay` on strings. -/
def strContains (hay needle : String) : Bool := containsSub needle.data hay.data

/-- Distinct elements of a list; models a Python `set`, of which the engine
only uses cardinality and membership. -/
def distinctList {α : Type} [DecidableEq α] : List α → List α
  | [] => []
  | x :: rest => if x ∈ rest then distinctList rest else x :: distinctList rest

/-- `" ".join`-style concatenation. -/
def joinWith (sep : String) : List String → String
  | [] => ""
  | [s] => s
  | s :: rest => s ++ sep ++ joinWith sep rest

/-- Stopword set of AdvancedNLPEngine (source: self.stopwords). -/
def stopwords : List String :=
  ["a", "o", "e", "de", "do", "da", "em", "um", "uma", "para", "com", "por", "que", "se", "na", "no", "ao", "as", "os", "das", "dos", "mas", "ou", "como", "mais", "muito", "ja", "nao", "sao", "tem", "foi", "ser", "ter", "seu", "sua", "seus", "suas", "ele", "ela", "eles", "elas", "isso", "isto", "aqui", "ali", "la", "onde", "quando", "porque", "como", "qual", "quais", "quem", "quanto", "quantos"]

/-- Synonym groups of AdvancedNLPEngine (source: self.synonyms). -/
def synonyms : List (String × List String) := [
  ("wifi", ["wifi", "wi-fi", "internet", "rede", "conexao", "conectar", "wireless", "sem fio", "roteador", "modem", "router", "sinal", "banda larga", "broadband", "net", "web", "online"]),
  ("internet", ["internet", "net", "web", "online", "conexao", "conectar", "rede", "banda larga"]),
  ("senha", ["senha", "password", "pass", "credencial", "login", "acesso", "autenticacao", "usuario", "logon", "entrar", "acessar", "logar", "autenticar"]),
  ("impressora", ["impressora", "printer", "imprimir", "impressao", "papel", "tinta", "cartucho", "toner", "scanner", "digitalizar", "escanear", "multifuncional", "hp", "canon", "epson"]),
  ("email", ["email", "e-mail", "correio", "mail", "outlook", "gmail", "yahoo", "hotmail", "mensagem", "enviar", "receber", "caixa de entrada", "spam", "lixo eletronico"]),
  ("problema", ["problema", "erro", "falha", "bug", "defeito", "nao funciona", "travando", "lento", "parou", "quebrado", "ruim", "mal", "dificuldade", "complicacao"]),
  ("configurar", ["configurar", "config", "setup", "instalar", "ajustar", "definir", "estabelecer"]),
  ("ajuda", ["ajuda", "help", "socorro", "auxilio", "suporte", "assistencia", "apoio"]),
  ("rapido", ["rapido", "fast", "veloz", "agil", "ligeiro", "presto"]),
  ("lento", ["lento", "slow", "devagar", "demorado", "tardio", "moroso"])
]


/-- `AdvancedNLPEngine.preprocess_text`: lower case, fold accents, replace
every character that is neither a word character nor whitespace by a space,
tokenize on whitespace, and drop stopwords and tokens of length at most one. -/
def preprocess_text (text : String) : List String :=
  let lowered := text.data.map pyLower
  let unaccented := lowered.map stripAccent
  let cleaned := unaccented.map (fun c => if isWordChar c || c.isWhitespace then c else ' ')
  let tokens := (splitWhitespace cleaned).map String.mk
  tokens.filter (fun token => decide (token ∉ stopwords ∧ 1 < token.length))

/-! ### `difflib.SequenceMatcher` (used by `_fuzzy_match`)

The words compared are far below the difflib autojunk cutoff, so the junk
heuristic never applies; the documented semantics is: repeatedly take the
longest matching contiguous block (earliest in the first string, then in the
second, on ties) and recurse on both sides; the ratio is twice the total
matched size over the total length. -/

/-- Length of the common prefix of two character lists. -/
def commonRunAux : List Char → List Char → Nat
  | x :: xs, y :: ys => if x = y then commonRunAux xs ys + 1 else 0
  | _, _ => 0

/-- Length of the matching run of `a` and `b` starting at positions `i`, `j`. -/
def commonRun (a b : List Char) (i j : Nat) : Nat := commonRunAux (a.drop i) (b.drop j)

/-- `find_longest_match` over the whole strings: the `(i, j, size)` of the
longest matching block, ties resolved to the smallest `i`, then smallest `j`
(the fold keeps the first maximum in that scan order). -/
def findLongestMatch (a b : List Char) : Nat × Nat × Nat :=
  (List.range a.length).foldl (fun best i =>
    (List.range b.length).foldl (fun best j =>
      let k := commonRun a b i j
      if best.2.2 < k then (i, j, k) else best) best) (0, 0, 0)

/-- Total size of the matching blocks; the explicit fuel bounds the recursion
depth (each level removes at least one character from each part, so the sum of
the lengths is always sufficient fuel). -/
def matchingSize : Nat → List Char → List Char → Nat
  | 0, _, _ => 0
  | fuel + 1, a, b =>
    let m := findLongestMatch a b
    if m.2.2 = 0 then 0
    else matchingSize fuel (a.take m.1) (b.take m.2.1) + m.2.2 +
      matchingSize fuel (a.drop (m.1 + m.2.2)) (b.drop (m.2.1 + m.2.2))

/-- `SequenceMatcher(None, w1, w2).ratio()`: twice the matched size over the
total length, 1.0 when both strings are empty. -/
def ratioValue (w1 w2 : String) : ℚ :=
  let total := w1.data.length + w2.data.length
  if total = 0 then 1
  else mkRat ((2 * matchingSize total w1.data w2.data : Nat) : Int) total

/-- `AdvancedNLPEngine._fuzzy_match` with the default threshold 0.8: both
words at least three characters long and ratio at least 4/5. -/
def fuzzy_match (word1 word2 : String) : Bool :=
  if word1.length < 3 || word2.length < 3 then false
  else decide (mkRat 4 5 ≤ ratioValue word1 word2)

/-- `AdvancedNLPEngine._are_synonyms`: both words belong to one synonym group. -/
def are_synonyms (word1 word2 : String) : Bool :=
  synonyms.any (fun g => decide (word1 ∈ g.2) && decide (word2 ∈ g.2))

/-- One credit per element of `set1` that matches some element of `set2`:
models the nested `for` loops with `break` of `calculate_similarity` (the
inner loop stops at the first match, so each `set1` element counts once). -/
def countMatched (set1 set2 : List String) (pred : String → String → Bool) : Nat :=
  set1.foldl (fun acc token1 => if set2.any (fun token2 => pred token1 token2) then acc + 1 else acc) 0

/-- `AdvancedNLPEngine._calculate_bigram_similarity`: half the Jaccard index
of the adjacent-pair sets, 0 when either sequence has fewer than two tokens. -/
def calculate_bigram_similarity (tokens1 tokens2 : List String) : ℚ :=
  if tokens1.length < 2 || tokens2.length < 2 then 0
  else
    let bigrams1 := distinctList (tokens1.zip tokens1.tail)
    let bigrams2 := distinctList (tokens2.zip tokens2.tail)
    if bigrams1.isEmpty || bigrams2.isEmpty then 0
    else
      let intersection := (bigrams1.filter (fun b => decide (b ∈ bigrams2))).length
      let union := (bigrams1 ++ bigrams2.filter (fun b => decide (b ∉ bigrams1))).length
      qMul (qDivN (qOfNat intersection) union) (mkRat 1 2)

/-- `AdvancedNLPEngine.calculate_similarity`: weighted exact, synonym and
fuzzy matches over the distinct tokens, normalized by the larger set, plus the
bigram bonus, capped at 3.0. -/
def calculate_similarity (tokens1 tokens2 : List String) : ℚ :=
  if tokens1.isEmpty || tokens2.isEmpty then 0
  else
    let set1 := distinctList tokens1
    let set2 := distinctList tokens2
    let exact_matches := (set1.filter (fun t => decide (t ∈ set2))).length
    let synonym_matches := countMatched set1 set2 are_synonyms
    let fuzzy_matches := qMul (qOfNat (countMatched set1 set2 fuzzy_match)) (mkRat 1 2)
    let max_tokens := max set1.length set2.length
    let similarity := qDivN
      (qAdd (qAdd (qMul (qOfNat exact_matches) (qOfNat 2)) (qMul (qOfNat synonym_matches) (mkRat 3 2))) fuzzy_matches)
      (max_tokens * 2)
    pyMin (qAdd similarity (calculate_bigram_similarity tokens1 tokens2)) (qOfNat 3)


/-! ### Intent classification (`EnhancedChatbot.classify_intent_advanced`) -/

/-- One topic of the knowledge base: keyword set, example phrases and the
confidence threshold (1.5 for every topic in the source). -/
structure TopicData where
  keywords : List String
  phrases : List String
  confidence_threshold : ℚ
deriving DecidableEq

/-- Topic definitions of EnhancedChatbot (source: self.knowledge_base).
Every entry in the source carries an explicit confidence_threshold, embedded here
as a plain field (the source reads it with .get and default 1.0). -/
def knowledge_base : List (String × TopicData) := [
  ("wifi",
   { keywords := ["wifi", "wi-fi", "internet", "rede", "conexao", "conectar", "wireless", "sem fio", "roteador", "modem", "router", "sinal", "banda larga"],
     phrases := ["como configurar wifi", "nao consigo conectar na internet", "wifi nao funciona", "problema com internet", "rede sem fio", "configurar roteador", "senha do wifi", "internet lenta", "sinal fraco", "nao conecta no wifi", "wifi desconectando"],
     confidence_threshold := mkRat 3 2 }),
  ("senha",
   { keywords := ["senha", "password", "esqueci", "resetar", "redefinir", "recuperar", "login", "acesso", "credencial"],
     phrases := ["esqueci minha senha", "como resetar senha", "recuperar senha", "nao lembro a senha", "perdi minha senha", "redefinir password", "problema de login", "nao consigo entrar", "senha incorreta", "bloqueado por senha", "alterar senha"],
     confidence_threshold := mkRat 3 2 }),
  ("impressora",
   { keywords := ["impressora", "imprimir", "printer", "papel", "tinta", "cartucho", "toner", "scanner", "impressao"],
     phrases := ["impressora nao funciona", "nao consigo imprimir", "problema na impressora", "impressora offline", "papel atolado", "tinta acabou", "cartucho vazio", "impressora nao conecta", "erro de impressao", "impressora lenta"],
     confidence_threshold := mkRat 3 2 }),
  ("email",
   { keywords := ["email", "e-mail", "outlook", "gmail", "correio", "mail", "yahoo", "hotmail", "mensagem"],
     phrases := ["como configurar email", "problema no email", "nao recebo emails", "email nao funciona", "configurar outlook", "gmail nao abre", "problema com correio", "nao consigo enviar email", "email travando"],
     confidence_threshold := mkRat 3 2 })
]

/-- Greeting word list of EnhancedChatbot (source: self.greetings). -/
def greetings : List String := ["ola", "oi", "bom dia", "boa tarde", "boa noite", "hello", "hi", "opa"]

/-- Farewell word list of EnhancedChatbot (source: self.farewells). -/
def farewells : List String := ["tchau", "ate logo", "obrigado", "valeu", "bye", "flw", "vlw"]

/-- The score of one topic in `classify_intent_advanced`: the best similarity
against the example phrases of the topic (a running maximum starting at 0.0), or
against the concatenation of its keywords, whichever is larger. -/
def topicScore (tokens : List String) (data : TopicData) : ℚ :=
  let phrase_score := data.phrases.foldl
    (fun acc phrase => pyMax acc (calculate_similarity tokens (preprocess_text phrase))) 0
  let keyword_similarity := calculate_similarity tokens (preprocess_text (joinWith " " data.keywords))
  pyMax phrase_score keyword_similarity

/-- The candidate-selection loop of `classify_intent_advanced` over the topics
in declaration order: the best `(intent, score)` pair starts at `(None, 0.0)`
and a topic takes over only when its score strictly exceeds the best score so
far and is at least its confidence threshold. -/
def selectBest (kb : List (String × TopicData)) (tokens : List String) : Option String × ℚ :=
  kb.foldl (fun best p =>
    let final_score := topicScore tokens p.2
    if best.2 < final_score ∧ p.2.confidence_threshold ≤ final_score then (some p.1, final_score)
    else best) (none, 0)

/-- `EnhancedChatbot.classify_intent_advanced`: greeting and farewell words
short-circuit, then the `diagnostico` keyword route, then similarity scoring;
`("unknown", 0.0)` when no topic clears its threshold. -/
def classify_intent_advanced (text : String) : String × ℚ :=
  let tokens := preprocess_text text
  if greetings.any (fun g => decide (g ∈ tokens)) then ("greeting", 3)
  else if farewells.any (fun f => decide (f ∈ tokens)) then ("farewell", 3)
  else
    match
      if "diagnostico" ∈ tokens then knowledge_base.find? (fun p => decide (p.1 ∈ tokens))
      else none
    with
    | some p => ("diagnostic_" ++ p.1, 3)
    | none =>
      match selectBest knowledge_base tokens with
      | (some intent, score) => (intent, score)
      | (none, _) => ("unknown", 0)


/-! ### Flow catalog data model -/

/-- One step of an interactive flow: display message, the insertion-ordered
`expected_responses` mapping from trigger substring to next step id, the
optional fallback message, and the optional terminal-outcome `solution`. -/
structure FlowStep where
  message : String
  expected_responses : List (String × String)
  fallback_message : Option String := none
  solution : Option String := none
deriving DecidableEq

/-- A flow: its steps keyed by id, in declaration order. -/
structure Flow where
  steps : List (String × FlowStep)
deriving DecidableEq

/-! ### The interactive flow catalog (`LogicalInferenceEngine.interactive_flows`)

Each step is embedded as its own definition; the `expected_responses`
mappings are insertion-ordered association lists, exactly as the Python
dict literals. -/

/-- Step `start` of the `password_recovery` flow. -/
def password_recovery_start : FlowStep where
  message := "Olá! Vejo que você selecionou a opção \x27Senha\x27. Quer recuperar o acesso à sua conta?"
  expected_responses := [
    ("sim", "access_login"),
    ("yes", "access_login"),
    ("claro", "access_login"),
    ("quero", "access_login"),
    ("preciso", "access_login"),
    ("nao", "different_problem"),
    ("não", "different_problem"),
    ("no", "different_problem")]
  fallback_message := some "Não entendi sua resposta. Você quer recuperar o acesso à sua conta? Responda \x27sim\x27 ou \x27não\x27."

/-- Step `access_login` of the `password_recovery` flow. -/
def password_recovery_access_login : FlowStep where
  message := "Certo, vou te ajudar 👍\nPrimeiro passo: acesse a página de login do sistema.\nConseguiu chegar lá?"
  expected_responses := [
    ("sim", "click_forgot"),
    ("yes", "click_forgot"),
    ("consegui", "click_forgot"),
    ("ok", "click_forgot"),
    ("nao", "help_find_login"),
    ("não", "help_find_login"),
    ("no", "help_find_login")]
  fallback_message := some "Você conseguiu acessar a página de login? Responda \x27sim\x27 se conseguiu ou \x27não\x27 se precisa de ajuda para encontrá-la."

/-- Step `help_find_login` of the `password_recovery` flow. -/
def password_recovery_help_find_login : FlowStep where
  message := "Sem problemas! Para encontrar a página de login:\n1. Abra seu navegador\n2. Digite o endereço do site/sistema\n3. Procure por \x27Login\x27, \x27Entrar\x27 ou \x27Acesso\x27\n\nConseguiu encontrar agora?"
  expected_responses := [
    ("sim", "click_forgot"),
    ("yes", "click_forgot"),
    ("consegui", "click_forgot"),
    ("nao", "escalate_support"),
    ("não", "escalate_support"),
    ("no", "escalate_support")]
  fallback_message := some "Conseguiu encontrar a página de login agora? Responda \x27sim\x27 ou \x27não\x27."

/-- Step `click_forgot` of the `password_recovery` flow. -/
def password_recovery_click_forgot : FlowStep where
  message := "Ótimo! Agora clique em \x27Esqueci minha senha\x27.\nEstá vendo essa opção?"
  expected_responses := [
    ("sim", "enter_email"),
    ("yes", "enter_email"),
    ("vejo", "enter_email"),
    ("cliquei", "enter_email"),
    ("ja cliquei", "enter_email"),
    ("nao", "help_find_forgot"),
    ("não", "help_find_forgot"),
    ("no", "help_find_forgot")]
  fallback_message := some "Você está vendo a opção \x27Esqueci minha senha\x27? Responda \x27sim\x27 se vê ou \x27não\x27 se não encontra."

/-- Step `help_find_forgot` of the `password_recovery` flow. -/
def password_recovery_help_find_forgot : FlowStep where
  message := "A opção pode estar com nomes como:\n• \x27Esqueci minha senha\x27\n• \x27Recuperar senha\x27\n• \x27Forgot password\x27\n• \x27Reset password\x27\n\nGeralmente fica abaixo dos campos de login. Encontrou?"
  expected_responses := [
    ("sim", "enter_email"),
    ("yes", "enter_email"),
    ("encontrei", "enter_email"),
    ("nao", "escalate_support"),
    ("não", "escalate_support"),
    ("no", "escalate_support")]
  fallback_message := some "Conseguiu encontrar a opção para recuperar senha? Responda \x27sim\x27 ou \x27não\x27."

/-- Step `enter_email` of the `password_recovery` flow. -/
def password_recovery_enter_email : FlowStep where
  message := "Perfeito 👌\nAgora digite o seu e-mail cadastrado e clique em enviar."
  expected_responses := [
    ("sim", "check_email"),
    ("yes", "check_email"),
    ("pronto", "check_email"),
    ("feito", "check_email"),
    ("ja fiz", "check_email"),
    ("digitei", "check_email"),
    ("enviei", "check_email")]
  fallback_message := some "Você já digitou seu e-mail e clicou em enviar? Responda quando tiver feito isso."

/-- Step `check_email` of the `password_recovery` flow. -/
def password_recovery_check_email : FlowStep where
  message := "Beleza! Em alguns instantes você deve receber um e-mail com um link para redefinir sua senha.\nPode verificar na sua caixa de entrada (ou na pasta de spam, caso não apareça logo)?"
  expected_responses := [
    ("sim", "click_link"),
    ("yes", "click_link"),
    ("recebi", "click_link"),
    ("chegou", "click_link"),
    ("nao", "email_troubleshoot"),
    ("não", "email_troubleshoot"),
    ("no", "email_troubleshoot"),
    ("nao chegou", "email_troubleshoot")]
  fallback_message := some "Você recebeu o e-mail de recuperação? Responda \x27sim\x27 se recebeu ou \x27não\x27 se ainda não chegou."

/-- Step `email_troubleshoot` of the `password_recovery` flow. -/
def password_recovery_email_troubleshoot : FlowStep where
  message := "Sem problemas! Vamos verificar:\n1. Confira a pasta de spam/lixo eletrônico\n2. Aguarde mais alguns minutos (pode demorar até 10 min)\n3. Verifique se digitou o e-mail correto\n\nO e-mail chegou agora?"
  expected_responses := [
    ("sim", "click_link"),
    ("yes", "click_link"),
    ("recebi", "click_link"),
    ("nao", "escalate_support"),
    ("não", "escalate_support"),
    ("no", "escalate_support")]
  fallback_message := some "O e-mail de recuperação chegou? Responda \x27sim\x27 ou \x27não\x27."

/-- Step `click_link` of the `password_recovery` flow. -/
def password_recovery_click_link : FlowStep where
  message := "Maravilha 🎉\nClique no link e escolha uma nova senha.\nDica: use uma senha com pelo menos 8 caracteres, incluindo números e letras para ficar mais segura."
  expected_responses := [
    ("sim", "test_login"),
    ("yes", "test_login"),
    ("pronto", "test_login"),
    ("feito", "test_login"),
    ("redefinida", "test_login"),
    ("alterada", "test_login")]
  fallback_message := some "Você já redefiniu sua senha? Responda quando tiver criado a nova senha."

/-- Step `test_login` of the `password_recovery` flow. -/
def password_recovery_test_login : FlowStep where
  message := "Perfeito! 🚀\nAgora tente fazer login novamente com a nova senha. Conseguiu acessar sua conta?"
  expected_responses := [
    ("sim", "success"),
    ("yes", "success"),
    ("consegui", "success"),
    ("funcionou", "success"),
    ("entrei", "success"),
    ("nao", "login_troubleshoot"),
    ("não", "login_troubleshoot"),
    ("no", "login_troubleshoot")]
  fallback_message := some "Conseguiu fazer login com a nova senha? Responda \x27sim\x27 ou \x27não\x27."

/-- Step `login_troubleshoot` of the `password_recovery` flow. -/
def password_recovery_login_troubleshoot : FlowStep where
  message := "Vamos verificar:\n1. Certifique-se de que está digitando a senha correta\n2. Verifique se o Caps Lock não está ativado\n3. Tente copiar e colar a senha\n\nFuncionou agora?"
  expected_responses := [
    ("sim", "success"),
    ("yes", "success"),
    ("funcionou", "success"),
    ("nao", "escalate_support"),
    ("não", "escalate_support"),
    ("no", "escalate_support")]
  fallback_message := some "Conseguiu fazer login agora? Responda \x27sim\x27 ou \x27não\x27."

/-- Step `different_problem` of the `password_recovery` flow. -/
def password_recovery_different_problem : FlowStep where
  message := "Entendi. Qual é o problema específico com sua senha?\n• Esqueci a senha\n• A senha não funciona\n• Conta bloqueada\n• Outro problema"
  expected_responses := [
    ("esqueci", "access_login"),
    ("nao funciona", "login_troubleshoot"),
    ("bloqueada", "escalate_support"),
    ("outro", "escalate_support")]
  fallback_message := some "Pode me dizer qual é o problema específico com sua senha?"

/-- Step `escalate_support` of the `password_recovery` flow. -/
def password_recovery_escalate_support : FlowStep where
  message := "Entendo que precisa de uma ajuda mais específica. Vou te conectar com um atendente humano que poderá ajudar melhor com seu caso.\n\nEnquanto isso, você pode tentar:\n• Entrar em contato com o suporte técnico\n• Verificar se há atualizações do sistema\n• Tentar em outro navegador"
  expected_responses := []
  solution := some "Caso escalado para suporte humano. Orientações básicas fornecidas."

/-- Step `success` of the `password_recovery` flow. -/
def password_recovery_success : FlowStep where
  message := "Excelente! 🎊 Sua senha foi redefinida com sucesso e você conseguiu acessar sua conta.\n\nPosso ajudar com mais alguma coisa?"
  expected_responses := []
  solution := some "Senha redefinida com sucesso. Usuário conseguiu acessar a conta."

/-- Step `start` of the `wifi_troubleshooting` flow. -/
def wifi_troubleshooting_start : FlowStep where
  message := "Olá! Vejo que você está com problemas de Wi-Fi. Vamos resolver isso juntos! 📶\n\nPrimeiro, me diga: você consegue ver sua rede Wi-Fi na lista de redes disponíveis?"
  expected_responses := [
    ("sim", "check_password"),
    ("yes", "check_password"),
    ("vejo", "check_password"),
    ("aparece", "check_password"),
    ("nao", "check_router"),
    ("não", "check_router"),
    ("no", "check_router"),
    ("nao aparece", "check_router")]
  fallback_message := some "Você consegue ver sua rede Wi-Fi na lista de redes disponíveis do seu dispositivo? Responda \x27sim\x27 ou \x27não\x27."

/-- Step `check_password` of the `wifi_troubleshooting` flow. -/
def wifi_troubleshooting_check_password : FlowStep where
  message := "Ótimo! A rede aparece na lista. Quando você tenta conectar, o que acontece?\n\n• Pede senha e não conecta\n• Conecta mas não navega\n• Fica tentando conectar\n• Outro problema"
  expected_responses := [
    ("senha", "wrong_password"),
    ("pede senha", "wrong_password"),
    ("nao conecta", "wrong_password"),
    ("conecta", "connected_no_internet"),
    ("navega", "connected_no_internet"),
    ("internet", "connected_no_internet"),
    ("tentando", "connection_timeout"),
    ("outro", "other_wifi_problem")]
  fallback_message := some "O que acontece quando você tenta conectar na rede Wi-Fi? Pode descrever o problema?"

/-- Step `wrong_password` of the `wifi_troubleshooting` flow. -/
def wifi_troubleshooting_wrong_password : FlowStep where
  message := "Parece ser um problema de senha. Vamos verificar:\n\n1. A senha do Wi-Fi geralmente está na etiqueta do roteador\n2. Pode estar escrita como \x27Password\x27, \x27Key\x27, \x27WPA\x27 ou \x27Senha\x27\n3. Cuidado com letras maiúsculas e minúsculas\n\nVocê tem acesso ao roteador para verificar a senha?"
  expected_responses := [
    ("sim", "check_router_label"),
    ("yes", "check_router_label"),
    ("tenho", "check_router_label"),
    ("nao", "ask_admin"),
    ("não", "ask_admin"),
    ("no", "ask_admin")]
  fallback_message := some "Você tem acesso físico ao roteador para verificar a senha na etiqueta? Responda \x27sim\x27 ou \x27não\x27."

/-- Step `check_router_label` of the `wifi_troubleshooting` flow. -/
def wifi_troubleshooting_check_router_label : FlowStep where
  message := "Perfeito! Procure na parte de trás ou embaixo do roteador por uma etiqueta com:\n• Password\n• WPA Key\n• Senha Wi-Fi\n• Network Key\n\nEncontrou a senha na etiqueta?"
  expected_responses := [
    ("sim", "try_new_password"),
    ("yes", "try_new_password"),
    ("encontrei", "try_new_password"),
    ("achei", "try_new_password"),
    ("nao", "reset_router_option"),
    ("não", "reset_router_option"),
    ("no", "reset_router_option")]
  fallback_message := some "Conseguiu encontrar a senha na etiqueta do roteador? Responda \x27sim\x27 ou \x27não\x27."

/-- Step `try_new_password` of the `wifi_troubleshooting` flow. -/
def wifi_troubleshooting_try_new_password : FlowStep where
  message := "Ótimo! Agora:\n1. Vá nas configurações de Wi-Fi do seu dispositivo\n2. Clique na sua rede\n3. Digite a senha exatamente como está na etiqueta\n4. Tente conectar\n\nConseguiu conectar?"
  expected_responses := [
    ("sim", "test_internet"),
    ("yes", "test_internet"),
    ("conectou", "test_internet"),
    ("funcionou", "test_internet"),
    ("nao", "password_troubleshoot"),
    ("não", "password_troubleshoot"),
    ("no", "password_troubleshoot")]
  fallback_message := some "Conseguiu conectar na rede Wi-Fi com a senha da etiqueta? Responda \x27sim\x27 ou \x27não\x27."

/-- Step `password_troubleshoot` of the `wifi_troubleshooting` flow. -/
def wifi_troubleshooting_password_troubleshoot : FlowStep where
  message := "Vamos tentar algumas coisas:\n1. Verifique se não há espaços antes ou depois da senha\n2. Confirme maiúsculas e minúsculas\n3. Alguns caracteres podem ser confusos (0 vs O, 1 vs l)\n\nTente novamente. Funcionou?"
  expected_responses := [
    ("sim", "test_internet"),
    ("yes", "test_internet"),
    ("funcionou", "test_internet"),
    ("nao", "reset_router_option"),
    ("não", "reset_router_option"),
    ("no", "reset_router_option")]
  fallback_message := some "Conseguiu conectar agora? Responda \x27sim\x27 ou \x27não\x27."

/-- Step `ask_admin` of the `wifi_troubleshooting` flow. -/
def wifi_troubleshooting_ask_admin : FlowStep where
  message := "Sem problemas! Você precisa perguntar a senha para:\n• Quem configurou o Wi-Fi\n• Administrador da rede\n• Responsável pela internet\n\nOu posso te ajudar a resetar o roteador (isso vai criar uma nova senha). O que prefere?"
  expected_responses := [
    ("perguntar", "wait_password"),
    ("admin", "wait_password"),
    ("resetar", "reset_router_option"),
    ("reset", "reset_router_option"),
    ("nova senha", "reset_router_option")]
  fallback_message := some "Você vai perguntar a senha para alguém ou prefere resetar o roteador?"

/-- Step `wait_password` of the `wifi_troubleshooting` flow. -/
def wifi_troubleshooting_wait_password : FlowStep where
  message := "Perfeito! Quando conseguir a senha, volte aqui que eu te ajudo a conectar.\n\nEnquanto isso, você pode:\n• Anotar a senha corretamente\n• Verificar se o dispositivo está próximo do roteador\n• Reiniciar o Wi-Fi do seu dispositivo\n\nConseguiu a senha?"
  expected_responses := [
    ("sim", "try_new_password"),
    ("yes", "try_new_password"),
    ("consegui", "try_new_password"),
    ("nao", "escalate_support"),
    ("não", "escalate_support"),
    ("no", "escalate_support")]
  fallback_message := some "Conseguiu a senha do Wi-Fi? Responda \x27sim\x27 quando tiver ou \x27não\x27 se precisar de outra solução."

/-- Step `check_router` of the `wifi_troubleshooting` flow. -/
def wifi_troubleshooting_check_router : FlowStep where
  message := "A rede não aparece na lista. Vamos verificar o roteador:\n\n1. O roteador está ligado? (luzes acesas)\n2. Os cabos estão bem conectados?\n3. Há energia elétrica?\n\nO roteador está ligado e com luzes acesas?"
  expected_responses := [
    ("sim", "restart_router"),
    ("yes", "restart_router"),
    ("ligado", "restart_router"),
    ("luzes", "restart_router"),
    ("nao", "power_check"),
    ("não", "power_check"),
    ("no", "power_check"),
    ("desligado", "power_check")]
  fallback_message := some "O roteador está ligado com luzes acesas? Responda \x27sim\x27 ou \x27não\x27."

/-- Step `power_check` of the `wifi_troubleshooting` flow. -/
def wifi_troubleshooting_power_check : FlowStep where
  message := "Vamos verificar a alimentação:\n1. O cabo de energia está conectado?\n2. A tomada está funcionando?\n3. O botão liga/desliga está acionado?\n\nTente ligar o roteador. Acendeu alguma luz?"
  expected_responses := [
    ("sim", "restart_router"),
    ("yes", "restart_router"),
    ("acendeu", "restart_router"),
    ("ligou", "restart_router"),
    ("nao", "power_troubleshoot"),
    ("não", "power_troubleshoot"),
    ("no", "power_troubleshoot")]
  fallback_message := some "O roteador ligou e acendeu alguma luz? Responda \x27sim\x27 ou \x27não\x27."

/-- Step `power_troubleshoot` of the `wifi_troubleshooting` flow. -/
def wifi_troubleshooting_power_troubleshoot : FlowStep where
  message := "Problema de energia. Vamos resolver:\n1. Teste a tomada com outro aparelho\n2. Verifique se o cabo não está danificado\n3. Procure o botão liga/desliga no roteador\n\nSe nada funcionar, pode ser problema no roteador. Conseguiu ligar?"
  expected_responses := [
    ("sim", "restart_router"),
    ("yes", "restart_router"),
    ("funcionou", "restart_router"),
    ("nao", "escalate_support"),
    ("não", "escalate_support"),
    ("no", "escalate_support")]
  fallback_message := some "Conseguiu ligar o roteador? Responda \x27sim\x27 ou \x27não\x27."

/-- Step `restart_router` of the `wifi_troubleshooting` flow. -/
def wifi_troubleshooting_restart_router : FlowStep where
  message := "Ótimo! Agora vamos reiniciar o roteador:\n1. Desligue o roteador da tomada\n2. Aguarde 30 segundos\n3. Ligue novamente\n4. Aguarde 2-3 minutos para estabilizar\n\nFez o reinício? As luzes estabilizaram?"
  expected_responses := [
    ("sim", "check_network_again"),
    ("yes", "check_network_again"),
    ("reiniciei", "check_network_again"),
    ("estabilizou", "check_network_again"),
    ("nao", "wait_longer"),
    ("não", "wait_longer"),
    ("no", "wait_longer")]
  fallback_message := some "Você reiniciou o roteador e as luzes estabilizaram? Responda \x27sim\x27 ou \x27não\x27."

/-- Step `wait_longer` of the `wifi_troubleshooting` flow. -/
def wifi_troubleshooting_wait_longer : FlowStep where
  message := "Sem pressa! O roteador pode demorar até 5 minutos para estabilizar completamente.\n\nEnquanto aguarda, verifique se:\n• A luz de energia está fixa (não piscando)\n• A luz de internet está acesa\n• A luz de Wi-Fi está ativa\n\nAgora as luzes estão estáveis?"
  expected_responses := [
    ("sim", "check_network_again"),
    ("yes", "check_network_again"),
    ("estaveis", "check_network_again"),
    ("nao", "escalate_support"),
    ("não", "escalate_support"),
    ("no", "escalate_support")]
  fallback_message := some "As luzes do roteador estão estáveis agora? Responda \x27sim\x27 ou \x27não\x27."

/-- Step `check_network_again` of the `wifi_troubleshooting` flow. -/
def wifi_troubleshooting_check_network_again : FlowStep where
  message := "Perfeito! Agora vamos verificar se a rede apareceu:\n1. Vá nas configurações de Wi-Fi do seu dispositivo\n2. Atualize a lista de redes\n3. Procure pelo nome da sua rede\n\nSua rede Wi-Fi aparece na lista agora?"
  expected_responses := [
    ("sim", "check_password"),
    ("yes", "check_password"),
    ("aparece", "check_password"),
    ("vejo", "check_password"),
    ("nao", "network_name_help"),
    ("não", "network_name_help"),
    ("no", "network_name_help")]
  fallback_message := some "Sua rede Wi-Fi aparece na lista agora? Responda \x27sim\x27 ou \x27não\x27."

/-- Step `network_name_help` of the `wifi_troubleshooting` flow. -/
def wifi_troubleshooting_network_name_help : FlowStep where
  message := "Vamos encontrar sua rede:\n• O nome pode estar na etiqueta do roteador\n• Procure por \x27SSID\x27, \x27Network Name\x27 ou \x27Nome da Rede\x27\n• Pode ser algo como \x27NET_2G\x27, \x27Vivo-Fibra\x27, etc.\n\nQual nome você vê na etiqueta do roteador?"
  expected_responses := [
    ("encontrei", "try_connect_network"),
    ("achei", "try_connect_network"),
    ("vejo", "try_connect_network"),
    ("nao tem", "escalate_support"),
    ("não tem", "escalate_support"),
    ("no", "escalate_support")]
  fallback_message := some "Conseguiu encontrar o nome da rede na etiqueta? Responda com o nome ou \x27não tem\x27 se não encontrar."

/-- Step `try_connect_network` of the `wifi_troubleshooting` flow. -/
def wifi_troubleshooting_try_connect_network : FlowStep where
  message := "Ótimo! Agora:\n1. Procure esse nome na lista de redes Wi-Fi\n2. Clique nele para conectar\n3. Digite a senha (também na etiqueta)\n\nConseguiu conectar?"
  expected_responses := [
    ("sim", "test_internet"),
    ("yes", "test_internet"),
    ("conectou", "test_internet"),
    ("nao", "final_troubleshoot"),
    ("não", "final_troubleshoot"),
    ("no", "final_troubleshoot")]
  fallback_message := some "Conseguiu conectar na rede Wi-Fi? Responda \x27sim\x27 ou \x27não\x27."

/-- Step `connected_no_internet` of the `wifi_troubleshooting` flow. -/
def wifi_troubleshooting_connected_no_internet : FlowStep where
  message := "Você está conectado ao Wi-Fi mas sem internet. Vamos resolver:\n\n1. Teste abrir um site (google.com)\n2. Reinicie o navegador\n3. Verifique se outros dispositivos têm internet\n\nOutros dispositivos (celular, TV) têm internet na mesma rede?"
  expected_responses := [
    ("sim", "device_problem"),
    ("yes", "device_problem"),
    ("tem", "device_problem"),
    ("funcionam", "device_problem"),
    ("nao", "internet_provider_issue"),
    ("não", "internet_provider_issue"),
    ("no", "internet_provider_issue")]
  fallback_message := some "Outros dispositivos têm internet na mesma rede Wi-Fi? Responda \x27sim\x27 ou \x27não\x27."

/-- Step `device_problem` of the `wifi_troubleshooting` flow. -/
def wifi_troubleshooting_device_problem : FlowStep where
  message := "O problema é específico do seu dispositivo. Vamos resolver:\n1. Esqueça a rede Wi-Fi e conecte novamente\n2. Reinicie seu dispositivo\n3. Verifique se há atualizações pendentes\n\nTente essas soluções. Funcionou?"
  expected_responses := [
    ("sim", "success"),
    ("yes", "success"),
    ("funcionou", "success"),
    ("nao", "escalate_support"),
    ("não", "escalate_support"),
    ("no", "escalate_support")]
  fallback_message := some "As soluções funcionaram? Responda \x27sim\x27 ou \x27não\x27."

/-- Step `internet_provider_issue` of the `wifi_troubleshooting` flow. -/
def wifi_troubleshooting_internet_provider_issue : FlowStep where
  message := "Parece ser um problema com seu provedor de internet. Vamos verificar:\n1. Reinicie o modem (se for separado do roteador)\n2. Verifique se há manutenção na região\n3. Entre em contato com seu provedor\n\nO reinício do modem resolveu?"
  expected_responses := [
    ("sim", "success"),
    ("yes", "success"),
    ("funcionou", "success"),
    ("nao", "contact_provider"),
    ("não", "contact_provider"),
    ("no", "contact_provider")]
  fallback_message := some "O reinício do modem resolveu o problema? Responda \x27sim\x27 ou \x27não\x27."

/-- Step `contact_provider` of the `wifi_troubleshooting` flow. -/
def wifi_troubleshooting_contact_provider : FlowStep where
  message := "Você precisa entrar em contato com seu provedor de internet:\n• Informe que está sem internet\n• Mencione que já reiniciou os equipamentos\n• Pergunte sobre manutenções na região\n\nO número geralmente está na conta ou no roteador."
  expected_responses := []
  solution := some "Problema de provedor de internet. Usuário orientado a entrar em contato."

/-- Step `connection_timeout` of the `wifi_troubleshooting` flow. -/
def wifi_troubleshooting_connection_timeout : FlowStep where
  message := "O dispositivo fica tentando conectar. Isso pode ser:\n• Senha incorreta\n• Sinal fraco\n• Problema no roteador\n\nVocê está próximo do roteador (mesma sala)?"
  expected_responses := [
    ("sim", "wrong_password"),
    ("yes", "wrong_password"),
    ("proximo", "wrong_password"),
    ("nao", "signal_strength"),
    ("não", "signal_strength"),
    ("no", "signal_strength"),
    ("longe", "signal_strength")]
  fallback_message := some "Você está próximo do roteador? Responda \x27sim\x27 ou \x27não\x27."

/-- Step `signal_strength` of the `wifi_troubleshooting` flow. -/
def wifi_troubleshooting_signal_strength : FlowStep where
  message := "O sinal pode estar fraco. Vamos melhorar:\n1. Aproxime-se do roteador\n2. Remova obstáculos (paredes, móveis)\n3. Verifique se há interferências (micro-ondas, outros roteadores)\n\nTente conectar mais próximo do roteador. Funcionou?"
  expected_responses := [
    ("sim", "test_internet"),
    ("yes", "test_internet"),
    ("funcionou", "test_internet"),
    ("nao", "wrong_password"),
    ("não", "wrong_password"),
    ("no", "wrong_password")]
  fallback_message := some "Conseguiu conectar mais próximo do roteador? Responda \x27sim\x27 ou \x27não\x27."

/-- Step `test_internet` of the `wifi_troubleshooting` flow. -/
def wifi_troubleshooting_test_internet : FlowStep where
  message := "Excelente! Você está conectado. Vamos testar a internet:\n1. Abra um navegador\n2. Acesse google.com ou youtube.com\n3. Teste a velocidade\n\nA internet está funcionando normalmente?"
  expected_responses := [
    ("sim", "success"),
    ("yes", "success"),
    ("funcionando", "success"),
    ("normal", "success"),
    ("lenta", "speed_troubleshoot"),
    ("devagar", "speed_troubleshoot"),
    ("nao", "connected_no_internet"),
    ("não", "connected_no_internet"),
    ("no", "connected_no_internet")]
  fallback_message := some "A internet está funcionando? Responda \x27sim\x27, \x27lenta\x27 ou \x27não\x27."

/-- Step `speed_troubleshoot` of the `wifi_troubleshooting` flow. -/
def wifi_troubleshooting_speed_troubleshoot : FlowStep where
  message := "Internet lenta pode ter várias causas:\n1. Muitos dispositivos conectados\n2. Downloads em andamento\n3. Problema no provedor\n4. Roteador sobrecarregado\n\nTente reiniciar o roteador novamente. Melhorou a velocidade?"
  expected_responses := [
    ("sim", "success"),
    ("yes", "success"),
    ("melhorou", "success"),
    ("nao", "contact_provider"),
    ("não", "contact_provider"),
    ("no", "contact_provider")]
  fallback_message := some "A velocidade melhorou após reiniciar? Responda \x27sim\x27 ou \x27não\x27."

/-- Step `reset_router_option` of the `wifi_troubleshooting` flow. -/
def wifi_troubleshooting_reset_router_option : FlowStep where
  message := "Podemos resetar o roteador para configurar uma nova senha:\n⚠️ ATENÇÃO: Isso vai apagar todas as configurações!\n\n1. Procure o botão \x27Reset\x27 no roteador\n2. Mantenha pressionado por 10 segundos\n3. Aguarde reiniciar\n\nQuer fazer o reset?"
  expected_responses := [
    ("sim", "reset_instructions"),
    ("yes", "reset_instructions"),
    ("quero", "reset_instructions"),
    ("nao", "escalate_support"),
    ("não", "escalate_support"),
    ("no", "escalate_support")]
  fallback_message := some "Quer fazer o reset do roteador? Responda \x27sim\x27 ou \x27não\x27."

/-- Step `reset_instructions` of the `wifi_troubleshooting` flow. -/
def wifi_troubleshooting_reset_instructions : FlowStep where
  message := "Instruções para reset:\n1. Com o roteador ligado, encontre o botão \x27Reset\x27\n2. Use um clipe ou palito para pressionar\n3. Mantenha pressionado por 10-15 segundos\n4. Solte e aguarde 2-3 minutos\n\nFez o reset? As luzes voltaram ao normal?"
  expected_responses := [
    ("sim", "post_reset_config"),
    ("yes", "post_reset_config"),
    ("fiz", "post_reset_config"),
    ("nao", "reset_help"),
    ("não", "reset_help"),
    ("no", "reset_help")]
  fallback_message := some "Conseguiu fazer o reset? Responda \x27sim\x27 ou \x27não\x27."

/-- Step `post_reset_config` of the `wifi_troubleshooting` flow. -/
def wifi_troubleshooting_post_reset_config : FlowStep where
  message := "Perfeito! Após o reset, o roteador volta às configurações de fábrica.\n\nProcure na etiqueta por:\n• Nome padrão da rede (SSID)\n• Senha padrão\n\nGeralmente algo como \x27admin\x27, \x2712345678\x27 ou está na etiqueta.\n\nConseguiu conectar com as configurações padrão?"
  expected_responses := [
    ("sim", "success"),
    ("yes", "success"),
    ("conectei", "success"),
    ("nao", "escalate_support"),
    ("não", "escalate_support"),
    ("no", "escalate_support")]
  fallback_message := some "Conseguiu conectar com as configurações padrão? Responda \x27sim\x27 ou \x27não\x27."

/-- Step `other_wifi_problem` of the `wifi_troubleshooting` flow. -/
def wifi_troubleshooting_other_wifi_problem : FlowStep where
  message := "Pode me descrever melhor o problema? Por exemplo:\n• Mensagem de erro específica\n• O que acontece quando tenta conectar\n• Há quanto tempo não funciona\n\nIsso me ajudará a encontrar a melhor solução."
  expected_responses := [
    ("erro", "error_analysis"),
    ("mensagem", "error_analysis"),
    ("nao conecta", "connection_timeout"),
    ("lento", "speed_troubleshoot"),
    ("cai", "connection_drops")]
  fallback_message := some "Pode descrever melhor o problema com o Wi-Fi?"

/-- Step `final_troubleshoot` of the `wifi_troubleshooting` flow. -/
def wifi_troubleshooting_final_troubleshoot : FlowStep where
  message := "Vamos tentar as últimas soluções:\n1. Esqueça a rede e reconecte\n2. Reinicie seu dispositivo\n3. Verifique se há atualizações\n4. Teste com outro dispositivo\n\nAlguma dessas soluções funcionou?"
  expected_responses := [
    ("sim", "success"),
    ("yes", "success"),
    ("funcionou", "success"),
    ("nao", "escalate_support"),
    ("não", "escalate_support"),
    ("no", "escalate_support")]
  fallback_message := some "Alguma das soluções funcionou? Responda \x27sim\x27 ou \x27não\x27."

/-- Step `escalate_support` of the `wifi_troubleshooting` flow. -/
def wifi_troubleshooting_escalate_support : FlowStep where
  message := "Entendo que o problema é mais complexo. Vou te conectar com um técnico especializado.\n\nEnquanto aguarda:\n• Anote o modelo do seu roteador\n• Verifique se há luzes piscando\n• Teste com outros dispositivos\n\nUm técnico entrará em contato em breve."
  expected_responses := []
  solution := some "Caso escalado para suporte técnico especializado."

/-- Step `success` of the `wifi_troubleshooting` flow. -/
def wifi_troubleshooting_success : FlowStep where
  message := "Fantástico! 🎉 Seu Wi-Fi está funcionando perfeitamente!\n\nDicas para manter a conexão estável:\n• Mantenha o roteador em local ventilado\n• Reinicie mensalmente\n• Mantenha firmware atualizado\n\nPosso ajudar com mais alguma coisa?"
  expected_responses := []
  solution := some "Wi-Fi configurado e funcionando com sucesso."

/-- Step `start` of the `printer_troubleshooting` flow. -/
def printer_troubleshooting_start : FlowStep where
  message := "Olá! Vejo que você está com problemas na impressora. Vamos resolver isso! 🖨️\n\nPrimeiro, me diga: qual é o problema específico?\n• Não imprime nada\n• Imprime com qualidade ruim\n• Papel atolado\n• Não reconhece a impressora\n• Outro problema"
  expected_responses := [
    ("nao imprime", "check_power"),
    ("não imprime", "check_power"),
    ("nada", "check_power"),
    ("qualidade", "print_quality"),
    ("ruim", "print_quality"),
    ("papel", "paper_jam"),
    ("atolado", "paper_jam"),
    ("nao reconhece", "connection_issue"),
    ("não reconhece", "connection_issue"),
    ("reconhece", "connection_issue"),
    ("outro", "other_printer_problem")]
  fallback_message := some "Qual é o problema específico com sua impressora? Pode escolher uma das opções ou descrever o problema."

/-- Step `check_power` of the `printer_troubleshooting` flow. -/
def printer_troubleshooting_check_power : FlowStep where
  message := "Vamos verificar o básico primeiro:\n\n1. A impressora está ligada? (luzes acesas)\n2. O cabo de energia está conectado?\n3. Há papel na bandeja?\n4. Há tinta/toner suficiente?\n\nA impressora está ligada com luzes acesas?"
  expected_responses := [
    ("sim", "check_connection"),
    ("yes", "check_connection"),
    ("ligada", "check_connection"),
    ("luzes", "check_connection"),
    ("nao", "power_troubleshoot"),
    ("não", "power_troubleshoot"),
    ("no", "power_troubleshoot"),
    ("desligada", "power_troubleshoot")]
  fallback_message := some "A impressora está ligada com luzes acesas? Responda \x27sim\x27 ou \x27não\x27."

/-- Step `power_troubleshoot` of the `printer_troubleshooting` flow. -/
def printer_troubleshooting_power_troubleshoot : FlowStep where
  message := "Vamos ligar a impressora:\n1. Verifique se o cabo está bem conectado\n2. Teste a tomada com outro aparelho\n3. Procure o botão liga/desliga\n4. Pressione firmemente o botão\n\nConseguiu ligar a impressora?"
  expected_responses := [
    ("sim", "check_connection"),
    ("yes", "check_connection"),
    ("ligou", "check_connection"),
    ("funcionou", "check_connection"),
    ("nao", "power_issue"),
    ("não", "power_issue"),
    ("no", "power_issue")]
  fallback_message := some "Conseguiu ligar a impressora? Responda \x27sim\x27 ou \x27não\x27."

/-- Step `power_issue` of the `printer_troubleshooting` flow. -/
def printer_troubleshooting_power_issue : FlowStep where
  message := "Problema de energia na impressora:\n• Cabo de energia danificado\n• Problema na tomada\n• Defeito interno\n\nTeste com outro cabo de energia se tiver. Se não ligar, pode precisar de assistência técnica.\n\nVai tentar assistência técnica ou tem outro cabo para testar?"
  expected_responses := [
    ("assistencia", "escalate_support"),
    ("tecnica", "escalate_support"),
    ("cabo", "test_cable"),
    ("outro", "test_cable")]
  fallback_message := some "Vai procurar assistência técnica ou tem outro cabo para testar?"

/-- Step `test_cable` of the `printer_troubleshooting` flow. -/
def printer_troubleshooting_test_cable : FlowStep where
  message := "Ótimo! Teste com outro cabo de energia:\n1. Desligue a impressora\n2. Troque o cabo\n3. Conecte novamente\n4. Tente ligar\n\nFuncionou com o outro cabo?"
  expected_responses := [
    ("sim", "check_connection"),
    ("yes", "check_connection"),
    ("funcionou", "check_connection"),
    ("nao", "escalate_support"),
    ("não", "escalate_support"),
    ("no", "escalate_support")]
  fallback_message := some "A impressora ligou com o outro cabo? Responda \x27sim\x27 ou \x27não\x27."

/-- Step `check_connection` of the `printer_troubleshooting` flow. -/
def printer_troubleshooting_check_connection : FlowStep where
  message := "Ótimo! A impressora está ligada. Agora vamos verificar a conexão:\n\nComo sua impressora está conectada?\n• Cabo USB\n• Wi-Fi\n• Cabo de rede (Ethernet)\n• Bluetooth"
  expected_responses := [
    ("usb", "check_usb"),
    ("cabo", "check_usb"),
    ("wifi", "check_wifi_printer"),
    ("wi-fi", "check_wifi_printer"),
    ("rede", "check_ethernet"),
    ("ethernet", "check_ethernet"),
    ("bluetooth", "check_bluetooth")]
  fallback_message := some "Como sua impressora está conectada ao computador? USB, Wi-Fi, cabo de rede ou Bluetooth?"

/-- Step `check_usb` of the `printer_troubleshooting` flow. -/
def printer_troubleshooting_check_usb : FlowStep where
  message := "Conexão USB. Vamos verificar:\n1. O cabo USB está bem conectado nos dois lados?\n2. Teste em outra porta USB do computador\n3. O computador reconhece a impressora?\n\nO computador mostra que a impressora está conectada?"
  expected_responses := [
    ("sim", "test_print"),
    ("yes", "test_print"),
    ("reconhece", "test_print"),
    ("mostra", "test_print"),
    ("nao", "usb_troubleshoot"),
    ("não", "usb_troubleshoot"),
    ("no", "usb_troubleshoot")]
  fallback_message := some "O computador reconhece a impressora conectada por USB? Responda \x27sim\x27 ou \x27não\x27."

/-- Step `usb_troubleshoot` of the `printer_troubleshooting` flow. -/
def printer_troubleshooting_usb_troubleshoot : FlowStep where
  message := "Vamos resolver a conexão USB:\n1. Troque de porta USB\n2. Teste outro cabo USB se tiver\n3. Reinicie o computador com a impressora conectada\n4. Verifique se precisa instalar drivers\n\nTentou essas soluções? Funcionou alguma?"
  expected_responses := [
    ("sim", "test_print"),
    ("yes", "test_print"),
    ("funcionou", "test_print"),
    ("nao", "driver_install"),
    ("não", "driver_install"),
    ("no", "driver_install")]
  fallback_message := some "Alguma das soluções USB funcionou? Responda \x27sim\x27 ou \x27não\x27."

/-- Step `check_wifi_printer` of the `printer_troubleshooting` flow. -/
def printer_troubleshooting_check_wifi_printer : FlowStep where
  message := "Impressora Wi-Fi. Vamos verificar:\n1. A impressora está conectada na mesma rede Wi-Fi?\n2. O computador está na mesma rede?\n3. A impressora aparece na lista de dispositivos?\n\nA impressora está na mesma rede Wi-Fi que o computador?"
  expected_responses := [
    ("sim", "test_print"),
    ("yes", "test_print"),
    ("mesma", "test_print"),
    ("rede", "test_print"),
    ("nao", "wifi_printer_setup"),
    ("não", "wifi_printer_setup"),
    ("no", "wifi_printer_setup"),
    ("nao sei", "wifi_printer_setup")]
  fallback_message := some "A impressora está conectada na mesma rede Wi-Fi que o computador? Responda \x27sim\x27 ou \x27não\x27."

/-- Step `wifi_printer_setup` of the `printer_troubleshooting` flow. -/
def printer_troubleshooting_wifi_printer_setup : FlowStep where
  message := "Vamos conectar a impressora no Wi-Fi:\n1. No painel da impressora, procure \x27Configurações\x27 ou \x27Setup\x27\n2. Encontre \x27Wi-Fi\x27 ou \x27Wireless\x27\n3. Selecione sua rede\n4. Digite a senha do Wi-Fi\n\nConseguiu encontrar as configurações de Wi-Fi na impressora?"
  expected_responses := [
    ("sim", "wifi_connect_printer"),
    ("yes", "wifi_connect_printer"),
    ("encontrei", "wifi_connect_printer"),
    ("achei", "wifi_connect_printer"),
    ("nao", "wifi_printer_help"),
    ("não", "wifi_printer_help"),
    ("no", "wifi_printer_help")]
  fallback_message := some "Conseguiu encontrar as configurações de Wi-Fi na impressora? Responda \x27sim\x27 ou \x27não\x27."

/-- Step `wifi_connect_printer` of the `printer_troubleshooting` flow. -/
def printer_troubleshooting_wifi_connect_printer : FlowStep where
  message := "Perfeito! Agora:\n1. Selecione sua rede Wi-Fi na lista\n2. Digite a senha (mesma do seu computador/celular)\n3. Confirme a conexão\n4. Aguarde a confirmação\n\nA impressora conectou no Wi-Fi? (geralmente mostra um ícone ou mensagem)"
  expected_responses := [
    ("sim", "add_printer_computer"),
    ("yes", "add_printer_computer"),
    ("conectou", "add_printer_computer"),
    ("funcionou", "add_printer_computer"),
    ("nao", "wifi_password_help"),
    ("não", "wifi_password_help"),
    ("no", "wifi_password_help")]
  fallback_message := some "A impressora conectou no Wi-Fi? Responda \x27sim\x27 ou \x27não\x27."

/-- Step `wifi_password_help` of the `printer_troubleshooting` flow. -/
def printer_troubleshooting_wifi_password_help : FlowStep where
  message := "Problema na conexão Wi-Fi da impressora:\n1. Verifique se a senha está correta\n2. Certifique-se de que está na rede 2.4GHz (não 5GHz)\n3. Aproxime a impressora do roteador\n4. Reinicie a impressora e tente novamente\n\nTentou novamente? Funcionou?"
  expected_responses := [
    ("sim", "add_printer_computer"),
    ("yes", "add_printer_computer"),
    ("funcionou", "add_printer_computer"),
    ("nao", "wifi_printer_help"),
    ("não", "wifi_printer_help"),
    ("no", "wifi_printer_help")]
  fallback_message := some "Conseguiu conectar a impressora no Wi-Fi agora? Responda \x27sim\x27 ou \x27não\x27."

/-- Step `wifi_printer_help` of the `printer_troubleshooting` flow. -/
def printer_troubleshooting_wifi_printer_help : FlowStep where
  message := "Algumas impressoras têm métodos alternativos:\n• Botão WPS (pressione no roteador e na impressora)\n• Aplicativo do fabricante (HP Smart, Canon PRINT, etc.)\n• Configuração via cabo USB temporário\n\nQual método quer tentar?"
  expected_responses := [
    ("wps", "wps_setup"),
    ("aplicativo", "app_setup"),
    ("app", "app_setup"),
    ("cabo", "usb_temp_setup"),
    ("usb", "usb_temp_setup")]
  fallback_message := some "Qual método quer tentar: WPS, aplicativo do fabricante ou cabo USB temporário?"

/-- Step `add_printer_computer` of the `printer_troubleshooting` flow. -/
def printer_troubleshooting_add_printer_computer : FlowStep where
  message := "Ótimo! A impressora está conectada no Wi-Fi. Agora vamos adicioná-la ao computador:\n\nWindows:\n1. Configurações > Impressoras e scanners\n2. Adicionar impressora\n3. Selecione sua impressora\n\nMac:\n1. Preferências > Impressoras\n2. Clique no +\n3. Selecione sua impressora\n\nConseguiu adicionar?"
  expected_responses := [
    ("sim", "test_print"),
    ("yes", "test_print"),
    ("adicionei", "test_print"),
    ("funcionou", "test_print"),
    ("nao", "add_printer_help"),
    ("não", "add_printer_help"),
    ("no", "add_printer_help")]
  fallback_message := some "Conseguiu adicionar a impressora no computador? Responda \x27sim\x27 ou \x27não\x27."

/-- Step `driver_install` of the `printer_troubleshooting` flow. -/
def printer_troubleshooting_driver_install : FlowStep where
  message := "Vamos instalar os drivers da impressora:\n1. Acesse o site do fabricante (HP, Canon, Epson, etc.)\n2. Procure por \x27Suporte\x27 ou \x27Downloads\x27\n3. Digite o modelo da sua impressora\n4. Baixe e instale o driver\n\nQual é a marca da sua impressora?"
  expected_responses := [
    ("hp", "hp_driver"),
    ("canon", "canon_driver"),
    ("epson", "epson_driver"),
    ("brother", "brother_driver"),
    ("samsung", "samsung_driver")]
  fallback_message := some "Qual é a marca da sua impressora? HP, Canon, Epson, Brother, Samsung ou outra?"

/-- Step `test_print` of the `printer_troubleshooting` flow. -/
def printer_troubleshooting_test_print : FlowStep where
  message := "Excelente! Agora vamos testar a impressão:\n1. Abra um documento simples (Bloco de Notas)\n2. Digite algumas palavras\n3. Clique em \x27Imprimir\x27 ou Ctrl+P\n4. Selecione sua impressora\n5. Clique em \x27Imprimir\x27\n\nA impressora imprimiu o teste?"
  expected_responses := [
    ("sim", "success"),
    ("yes", "success"),
    ("imprimiu", "success"),
    ("funcionou", "success"),
    ("nao", "print_troubleshoot"),
    ("não", "print_troubleshoot"),
    ("no", "print_troubleshoot")]
  fallback_message := some "A impressora imprimiu o teste? Responda \x27sim\x27 ou \x27não\x27."

/-- Step `print_troubleshoot` of the `printer_troubleshooting` flow. -/
def printer_troubleshooting_print_troubleshoot : FlowStep where
  message := "Vamos resolver o problema de impressão:\n1. Verifique se há papel na bandeja\n2. Confirme se há tinta/toner\n3. Verifique se não há papel atolado\n4. Reinicie a impressora\n\nO que você observa? Há alguma luz piscando ou mensagem de erro?"
  expected_responses := [
    ("papel", "paper_issue"),
    ("tinta", "ink_issue"),
    ("atolado", "paper_jam"),
    ("erro", "error_message"),
    ("luz", "error_lights"),
    ("nada", "general_troubleshoot")]
  fallback_message := some "O que você observa na impressora? Papel, tinta, atolamento, erro ou nada específico?"

/-- Step `paper_issue` of the `printer_troubleshooting` flow. -/
def printer_troubleshooting_paper_issue : FlowStep where
  message := "Problema com papel:\n1. Verifique se há papel suficiente na bandeja\n2. Ajuste as guias laterais do papel\n3. Use papel do tamanho correto (A4, Carta)\n4. Não sobrecarregue a bandeja\n\nColocou papel corretamente? Tente imprimir novamente."
  expected_responses := [
    ("sim", "test_print"),
    ("yes", "test_print"),
    ("funcionou", "test_print"),
    ("nao", "paper_jam"),
    ("não", "paper_jam"),
    ("no", "paper_jam")]
  fallback_message := some "Colocou o papel corretamente? Responda \x27sim\x27 ou \x27não\x27."

/-- Step `ink_issue` of the `printer_troubleshooting` flow. -/
def printer_troubleshooting_ink_issue : FlowStep where
  message := "Problema com tinta/toner:\n1. Verifique o nível de tinta no painel ou computador\n2. Remova e recoloque os cartuchos\n3. Limpe os contatos dos cartuchos\n4. Se necessário, substitua cartuchos vazios\n\nOs cartuchos têm tinta suficiente?"
  expected_responses := [
    ("sim", "test_print"),
    ("yes", "test_print"),
    ("tem", "test_print"),
    ("suficiente", "test_print"),
    ("nao", "replace_cartridge"),
    ("não", "replace_cartridge"),
    ("no", "replace_cartridge"),
    ("vazio", "replace_cartridge")]
  fallback_message := some "Os cartuchos têm tinta suficiente? Responda \x27sim\x27 ou \x27não\x27."

/-- Step `replace_cartridge` of the `printer_troubleshooting` flow. -/
def printer_troubleshooting_replace_cartridge : FlowStep where
  message := "Hora de trocar os cartuchos:\n1. Abra a tampa da impressora\n2. Remova o cartucho vazio\n3. Desembale o novo cartucho\n4. Remova todas as fitas protetoras\n5. Instale o novo cartucho\n\nTrocou o cartucho? Tente imprimir novamente."
  expected_responses := [
    ("sim", "test_print"),
    ("yes", "test_print"),
    ("troquei", "test_print"),
    ("instalei", "test_print"),
    ("nao", "cartridge_help"),
    ("não", "cartridge_help"),
    ("no", "cartridge_help")]
  fallback_message := some "Conseguiu trocar o cartucho? Responda \x27sim\x27 ou \x27não\x27."

/-- Step `paper_jam` of the `printer_troubleshooting` flow. -/
def printer_troubleshooting_paper_jam : FlowStep where
  message := "Vamos resolver o papel atolado:\n1. Desligue a impressora\n2. Abra todas as tampas\n3. Remova cuidadosamente o papel atolado\n4. Verifique se não sobrou pedaços\n5. Feche as tampas e ligue novamente\n\nConseguiu remover todo o papel atolado?"
  expected_responses := [
    ("sim", "test_print"),
    ("yes", "test_print"),
    ("removi", "test_print"),
    ("limpei", "test_print"),
    ("nao", "paper_jam_help"),
    ("não", "paper_jam_help"),
    ("no", "paper_jam_help")]
  fallback_message := some "Conseguiu remover todo o papel atolado? Responda \x27sim\x27 ou \x27não\x27."

/-- Step `paper_jam_help` of the `printer_troubleshooting` flow. -/
def printer_troubleshooting_paper_jam_help : FlowStep where
  message := "Para papel atolado difícil:\n1. Use uma lanterna para ver melhor\n2. Puxe o papel na direção do movimento\n3. Não force, pode danificar a impressora\n4. Se necessário, consulte o manual\n\nSe não conseguir, pode precisar de assistência técnica. Conseguiu agora?"
  expected_responses := [
    ("sim", "test_print"),
    ("yes", "test_print"),
    ("consegui", "test_print"),
    ("nao", "escalate_support"),
    ("não", "escalate_support"),
    ("no", "escalate_support")]
  fallback_message := some "Conseguiu remover o papel atolado? Responda \x27sim\x27 ou \x27não\x27."

/-- Step `print_quality` of the `printer_troubleshooting` flow. -/
def printer_troubleshooting_print_quality : FlowStep where
  message := "Problema de qualidade de impressão. Qual é o problema específico?\n• Texto borrado ou manchado\n• Cores desbotadas\n• Linhas ou riscos\n• Impressão muito clara\n• Impressão cortada"
  expected_responses := [
    ("borrado", "clean_heads"),
    ("manchado", "clean_heads"),
    ("cores", "color_issue"),
    ("desbotadas", "color_issue"),
    ("linhas", "alignment_issue"),
    ("riscos", "alignment_issue"),
    ("clara", "ink_issue"),
    ("cortada", "paper_size_issue")]
  fallback_message := some "Qual é o problema específico de qualidade? Borrado, cores ruins, linhas, muito claro ou cortado?"

/-- Step `clean_heads` of the `printer_troubleshooting` flow. -/
def printer_troubleshooting_clean_heads : FlowStep where
  message := "Vamos limpar os cabeçotes de impressão:\n1. Acesse as configurações da impressora\n2. Procure por \x27Manutenção\x27 ou \x27Limpeza\x27\n3. Execute \x27Limpeza dos cabeçotes\x27\n4. Aguarde o processo terminar\n5. Imprima uma página de teste\n\nA qualidade melhorou após a limpeza?"
  expected_responses := [
    ("sim", "success"),
    ("yes", "success"),
    ("melhorou", "success"),
    ("nao", "deep_clean"),
    ("não", "deep_clean"),
    ("no", "deep_clean")]
  fallback_message := some "A qualidade de impressão melhorou após a limpeza? Responda \x27sim\x27 ou \x27não\x27."

/-- Step `deep_clean` of the `printer_troubleshooting` flow. -/
def printer_troubleshooting_deep_clean : FlowStep where
  message := "Vamos fazer uma limpeza profunda:\n1. Execute \x27Limpeza profunda\x27 ou \x27Deep cleaning\x27\n2. Aguarde (pode demorar alguns minutos)\n3. Imprima página de teste\n4. Se necessário, repita o processo\n\nA limpeza profunda resolveu?"
  expected_responses := [
    ("sim", "success"),
    ("yes", "success"),
    ("resolveu", "success"),
    ("nao", "replace_cartridge"),
    ("não", "replace_cartridge"),
    ("no", "replace_cartridge")]
  fallback_message := some "A limpeza profunda resolveu o problema? Responda \x27sim\x27 ou \x27não\x27."

/-- Step `escalate_support` of the `printer_troubleshooting` flow. -/
def printer_troubleshooting_escalate_support : FlowStep where
  message := "O problema parece mais complexo e pode precisar de assistência técnica especializada.\n\nAntes de procurar assistência:\n• Anote o modelo exato da impressora\n• Descreva o problema detalhadamente\n• Verifique se ainda está na garantia\n\nUm técnico poderá ajudar melhor com seu caso específico."
  expected_responses := []
  solution := some "Caso escalado para assistência técnica especializada."

/-- Step `success` of the `printer_troubleshooting` flow. -/
def printer_troubleshooting_success : FlowStep where
  message := "Excelente! 🎉 Sua impressora está funcionando perfeitamente!\n\nDicas para manter a impressora em bom estado:\n• Imprima pelo menos uma página por semana\n• Mantenha cartuchos originais ou compatíveis de qualidade\n• Limpe regularmente\n• Use papel de boa qualidade\n\nPosso ajudar com mais alguma coisa?"
  expected_responses := []
  solution := some "Impressora configurada e funcionando com sucesso."

/-- Step `start` of the `email_configuration` flow. -/
def email_configuration_start : FlowStep where
  message := "Olá! Vejo que você precisa de ajuda com configuração de email. 📧\n\nQual é sua situação?\n• Configurar email pela primeira vez\n• Email parou de funcionar\n• Não consigo enviar emails\n• Não recebo emails\n• Outro problema"
  expected_responses := [
    ("primeira", "first_time_setup"),
    ("primeira vez", "first_time_setup"),
    ("configurar", "first_time_setup"),
    ("parou", "email_stopped"),
    ("nao funciona", "email_stopped"),
    ("enviar", "send_problem"),
    ("nao consigo enviar", "send_problem"),
    ("receber", "receive_problem"),
    ("nao recebo", "receive_problem"),
    ("outro", "other_email_problem")]
  fallback_message := some "Qual é o problema específico com seu email? Primeira configuração, parou de funcionar, problemas para enviar/receber ou outro?"

/-- Step `first_time_setup` of the `email_configuration` flow. -/
def email_configuration_first_time_setup : FlowStep where
  message := "Vamos configurar seu email! Primeiro preciso saber:\n\nQual provedor de email você usa?\n• Gmail\n• Outlook/Hotmail\n• Yahoo\n• Email corporativo/trabalho\n• Outro provedor"
  expected_responses := [
    ("gmail", "gmail_setup"),
    ("google", "gmail_setup"),
    ("outlook", "outlook_setup"),
    ("hotmail", "outlook_setup"),
    ("yahoo", "yahoo_setup"),
    ("corporativo", "corporate_setup"),
    ("trabalho", "corporate_setup"),
    ("empresa", "corporate_setup"),
    ("outro", "other_provider_setup")]
  fallback_message := some "Qual provedor de email você usa? Gmail, Outlook, Yahoo, email corporativo ou outro?"

/-- Step `gmail_setup` of the `email_configuration` flow. -/
def email_configuration_gmail_setup : FlowStep where
  message := "Configuração do Gmail! 📬\n\nEm qual aplicativo você quer configurar?\n• Outlook (Windows/Mac)\n• Mail (iPhone/iPad)\n• Email (Android)\n• Thunderbird\n• Outro aplicativo"
  expected_responses := [
    ("outlook", "gmail_outlook"),
    ("mail", "gmail_iphone"),
    ("iphone", "gmail_iphone"),
    ("android", "gmail_android"),
    ("thunderbird", "gmail_thunderbird"),
    ("outro", "gmail_generic")]
  fallback_message := some "Em qual aplicativo quer configurar o Gmail? Outlook, Mail (iPhone), Email (Android), Thunderbird ou outro?"

/-- Step `gmail_outlook` of the `email_configuration` flow. -/
def email_configuration_gmail_outlook : FlowStep where
  message := "Configurando Gmail no Outlook:\n\n1. Abra o Outlook\n2. Vá em Arquivo > Adicionar Conta\n3. Digite seu email do Gmail\n4. Clique em \x27Conectar\x27\n5. Será redirecionado para login do Google\n\nConseguiu chegar na tela de login do Google?"
  expected_responses := [
    ("sim", "gmail_outlook_login"),
    ("yes", "gmail_outlook_login"),
    ("consegui", "gmail_outlook_login"),
    ("nao", "gmail_outlook_help"),
    ("não", "gmail_outlook_help"),
    ("no", "gmail_outlook_help")]
  fallback_message := some "Conseguiu chegar na tela de login do Google? Responda \x27sim\x27 ou \x27não\x27."

/-- Step `gmail_outlook_login` of the `email_configuration` flow. -/
def email_configuration_gmail_outlook_login : FlowStep where
  message := "Perfeito! Agora:\n1. Digite sua senha do Gmail\n2. Se tiver autenticação em 2 fatores, use o código\n3. Autorize o Outlook a acessar sua conta\n4. Aguarde a sincronização\n\nO Outlook conseguiu conectar e baixar seus emails?"
  expected_responses := [
    ("sim", "test_email_send"),
    ("yes", "test_email_send"),
    ("conectou", "test_email_send"),
    ("baixou", "test_email_send"),
    ("nao", "gmail_auth_problem"),
    ("não", "gmail_auth_problem"),
    ("no", "gmail_auth_problem")]
  fallback_message := some "O Outlook conectou e baixou seus emails do Gmail? Responda \x27sim\x27 ou \x27não\x27."

/-- Step `gmail_auth_problem` of the `email_configuration` flow. -/
def email_configuration_gmail_auth_problem : FlowStep where
  message := "Problema de autenticação. Vamos resolver:\n\n1. Verifique se a senha está correta\n2. Se usa autenticação em 2 fatores, pode precisar de senha de app\n3. Acesse myaccount.google.com\n4. Vá em Segurança > Senhas de app\n5. Gere uma senha específica para o Outlook\n\nQuer tentar gerar uma senha de app?"
  expected_responses := [
    ("sim", "gmail_app_password"),
    ("yes", "gmail_app_password"),
    ("quero", "gmail_app_password"),
    ("gerar", "gmail_app_password"),
    ("nao", "gmail_basic_auth"),
    ("não", "gmail_basic_auth"),
    ("no", "gmail_basic_auth")]
  fallback_message := some "Quer tentar gerar uma senha de app para o Gmail? Responda \x27sim\x27 ou \x27não\x27."

/-- Step `gmail_app_password` of the `email_configuration` flow. -/
def email_configuration_gmail_app_password : FlowStep where
  message := "Gerando senha de app:\n1. Acesse myaccount.google.com\n2. Segurança > Verificação em duas etapas\n3. Senhas de app\n4. Selecione \x27Email\x27 e \x27Computador\x27\n5. Copie a senha gerada\n6. Use essa senha no Outlook (não sua senha normal)\n\nConseguiu gerar e usar a senha de app?"
  expected_responses := [
    ("sim", "test_email_send"),
    ("yes", "test_email_send"),
    ("funcionou", "test_email_send"),
    ("nao", "gmail_basic_auth"),
    ("não", "gmail_basic_auth"),
    ("no", "gmail_basic_auth")]
  fallback_message := some "Conseguiu usar a senha de app? Responda \x27sim\x27 ou \x27não\x27."

/-- Step `outlook_setup` of the `email_configuration` flow. -/
def email_configuration_outlook_setup : FlowStep where
  message := "Configuração do Outlook/Hotmail! 📧\n\nEm qual aplicativo você quer configurar?\n• Outlook (Windows/Mac)\n• Mail (iPhone/iPad)\n• Email (Android)\n• Thunderbird\n• Outro aplicativo"
  expected_responses := [
    ("outlook", "outlook_outlook"),
    ("mail", "outlook_iphone"),
    ("iphone", "outlook_iphone"),
    ("android", "outlook_android"),
    ("thunderbird", "outlook_thunderbird"),
    ("outro", "outlook_generic")]
  fallback_message := some "Em qual aplicativo quer configurar o Outlook/Hotmail?"

/-- Step `corporate_setup` of the `email_configuration` flow. -/
def email_configuration_corporate_setup : FlowStep where
  message := "Email corporativo! 🏢\n\nPara configurar email da empresa, você precisa das informações do seu departamento de TI:\n\n• Servidor de entrada (IMAP/POP3)\n• Servidor de saída (SMTP)\n• Portas e segurança\n• Seu usuário e senha\n\nVocê tem essas informações?"
  expected_responses := [
    ("sim", "corporate_manual_setup"),
    ("yes", "corporate_manual_setup"),
    ("tenho", "corporate_manual_setup"),
    ("nao", "contact_it_support"),
    ("não", "contact_it_support"),
    ("no", "contact_it_support")]
  fallback_message := some "Você tem as informações de configuração do email corporativo? Responda \x27sim\x27 ou \x27não\x27."

/-- Step `contact_it_support` of the `email_configuration` flow. -/
def email_configuration_contact_it_support : FlowStep where
  message := "Para email corporativo, você precisa entrar em contato com:\n• Departamento de TI da empresa\n• Suporte técnico interno\n• Administrador de sistemas\n\nEles fornecerão:\n• Configurações específicas\n• Usuário e senha\n• Instruções de segurança\n\nApós obter as informações, posso ajudar com a configuração!"
  expected_responses := [
    ("ok", "wait_it_info"),
    ("entendi", "wait_it_info"),
    ("vou contatar", "wait_it_info")]
  fallback_message := some "Entre em contato com o TI da empresa para obter as configurações. Depois posso ajudar!"

/-- Step `test_email_send` of the `email_configuration` flow. -/
def email_configuration_test_email_send : FlowStep where
  message := "Ótimo! O email está configurado. Vamos testar:\n\n1. Compose um novo email\n2. Envie para você mesmo\n3. Verifique se recebe o email\n4. Teste responder\n\nO teste de envio e recebimento funcionou?"
  expected_responses := [
    ("sim", "success"),
    ("yes", "success"),
    ("funcionou", "success"),
    ("recebeu", "success"),
    ("nao", "email_test_troubleshoot"),
    ("não", "email_test_troubleshoot"),
    ("no", "email_test_troubleshoot")]
  fallback_message := some "O teste de envio e recebimento funcionou? Responda \x27sim\x27 ou \x27não\x27."

/-- Step `email_stopped` of the `email_configuration` flow. -/
def email_configuration_email_stopped : FlowStep where
  message := "Email parou de funcionar. Vamos diagnosticar:\n\nO que acontece quando você tenta usar o email?\n• Pede senha constantemente\n• Erro de conexão\n• Não baixa emails novos\n• Não consegue enviar\n• Outro erro"
  expected_responses := [
    ("senha", "password_problem"),
    ("pede senha", "password_problem"),
    ("conexao", "connection_error"),
    ("erro conexao", "connection_error"),
    ("nao baixa", "receive_problem"),
    ("não baixa", "receive_problem"),
    ("nao envia", "send_problem"),
    ("não envia", "send_problem"),
    ("outro", "other_email_problem")]
  fallback_message := some "O que acontece quando tenta usar o email? Pede senha, erro de conexão, não baixa, não envia ou outro problema?"

/-- Step `password_problem` of the `email_configuration` flow. -/
def email_configuration_password_problem : FlowStep where
  message := "Problema de senha. Vamos resolver:\n\n1. Sua senha do email mudou recentemente?\n2. Você ativou autenticação em 2 fatores?\n3. O provedor mudou políticas de segurança?\n\nVamos atualizar a senha no aplicativo. Qual é seu provedor de email?"
  expected_responses := [
    ("gmail", "gmail_password_update"),
    ("outlook", "outlook_password_update"),
    ("yahoo", "yahoo_password_update"),
    ("corporativo", "corporate_password_update")]
  fallback_message := some "Qual é seu provedor de email? Gmail, Outlook, Yahoo ou corporativo?"

/-- Step `send_problem` of the `email_configuration` flow. -/
def email_configuration_send_problem : FlowStep where
  message := "Problema para enviar emails. Vamos verificar:\n\n1. Os emails ficam na caixa de saída?\n2. Recebe mensagem de erro específica?\n3. O problema é com todos os destinatários?\n4. Anexos muito grandes?\n\nO que você observa quando tenta enviar?"
  expected_responses := [
    ("caixa saida", "outbox_problem"),
    ("erro", "send_error_analysis"),
    ("todos", "smtp_problem"),
    ("anexos", "attachment_size_problem"),
    ("grandes", "attachment_size_problem")]
  fallback_message := some "O que acontece quando tenta enviar? Fica na caixa de saída, dá erro, problema com todos ou anexos grandes?"

/-- Step `receive_problem` of the `email_configuration` flow. -/
def email_configuration_receive_problem : FlowStep where
  message := "Problema para receber emails. Vamos verificar:\n\n1. Há quanto tempo não recebe emails?\n2. A caixa de entrada está cheia?\n3. Emails vão para spam?\n4. Problema com remetentes específicos?\n\nHá quanto tempo não recebe emails novos?"
  expected_responses := [
    ("hoje", "recent_receive_problem"),
    ("ontem", "recent_receive_problem"),
    ("dias", "old_receive_problem"),
    ("semana", "old_receive_problem"),
    ("cheia", "mailbox_full"),
    ("spam", "spam_problem")]
  fallback_message := some "Há quanto tempo não recebe emails? Hoje, dias, semana, ou a caixa está cheia?"

/-- Step `escalate_support` of the `email_configuration` flow. -/
def email_configuration_escalate_support : FlowStep where
  message := "O problema parece mais complexo. Recomendo:\n\n• Contatar suporte do provedor de email\n• Verificar configurações avançadas\n• Considerar reconfiguração completa\n• Backup dos emails importantes\n\nPosso ajudar com configuração básica, mas problemas complexos podem precisar de suporte especializado."
  expected_responses := []
  solution := some "Caso escalado para suporte especializado do provedor."

/-- Step `success` of the `email_configuration` flow. -/
def email_configuration_success : FlowStep where
  message := "Fantástico! 🎉 Seu email está configurado e funcionando perfeitamente!\n\nDicas para manter o email funcionando:\n• Mantenha senhas atualizadas\n• Configure backup regular\n• Organize pastas e regras\n• Mantenha aplicativo atualizado\n\nPosso ajudar com mais alguma coisa?"
  expected_responses := []
  solution := some "Email configurado e funcionando com sucesso."

/-- The `password_recovery` flow: its steps keyed by id, in declaration order. -/
def password_recovery_flow : Flow := ⟨[
  ("start", password_recovery_start),
  ("access_login", password_recovery_access_login),
  ("help_find_login", password_recovery_help_find_login),
  ("click_forgot", password_recovery_click_forgot),
  ("help_find_forgot", password_recovery_help_find_forgot),
  ("enter_email", password_recovery_enter_email),
  ("check_email", password_recovery_check_email),
  ("email_troubleshoot", password_recovery_email_troubleshoot),
  ("click_link", password_recovery_click_link),
  ("test_login", password_recovery_test_login),
  ("login_troubleshoot", password_recovery_login_troubleshoot),
  ("different_problem", password_recovery_different_problem),
  ("escalate_support", password_recovery_escalate_support),
  ("success", password_recovery_success)]⟩

/-- The `wifi_troubleshooting` flow: its steps keyed by id, in declaration order. -/
def wifi_troubleshooting_flow : Flow := ⟨[
  ("start", wifi_troubleshooting_start),
  ("check_password", wifi_troubleshooting_check_password),
  ("wrong_password", wifi_troubleshooting_wrong_password),
  ("check_router_label", wifi_troubleshooting_check_router_label),
  ("try_new_password", wifi_troubleshooting_try_new_password),
  ("password_troubleshoot", wifi_troubleshooting_password_troubleshoot),
  ("ask_admin", wifi_troubleshooting_ask_admin),
  ("wait_password", wifi_troubleshooting_wait_password),
  ("check_router", wifi_troubleshooting_check_router),
  ("power_check", wifi_troubleshooting_power_check),
  ("power_troubleshoot", wifi_troubleshooting_power_troubleshoot),
  ("restart_router", wifi_troubleshooting_restart_router),
  ("wait_longer", wifi_troubleshooting_wait_longer),
  ("check_network_again", wifi_troubleshooting_check_network_again),
  ("network_name_help", wifi_troubleshooting_network_name_help),
  ("try_connect_network", wifi_troubleshooting_try_connect_network),
  ("connected_no_internet", wifi_troubleshooting_connected_no_internet),
  ("device_problem", wifi_troubleshooting_device_problem),
  ("internet_provider_issue", wifi_troubleshooting_internet_provider_issue),
  ("contact_provider", wifi_troubleshooting_contact_provider),
  ("connection_timeout", wifi_troubleshooting_connection_timeout),
  ("signal_strength", wifi_troubleshooting_signal_strength),
  ("test_internet", wifi_troubleshooting_test_internet),
  ("speed_troubleshoot", wifi_troubleshooting_speed_troubleshoot),
  ("reset_router_option", wifi_troubleshooting_reset_router_option),
  ("reset_instructions", wifi_troubleshooting_reset_instructions),
  ("post_reset_config", wifi_troubleshooting_post_reset_config),
  ("other_wifi_problem", wifi_troubleshooting_other_wifi_problem),
  ("final_troubleshoot", wifi_troubleshooting_final_troubleshoot),
  ("escalate_support", wifi_troubleshooting_escalate_support),
  ("success", wifi_troubleshooting_success)]⟩

/-- The `printer_troubleshooting` flow: its steps keyed by id, in declaration order. -/
def printer_troubleshooting_flow : Flow := ⟨[
  ("start", printer_troubleshooting_start),
  ("check_power", printer_troubleshooting_check_power),
  ("power_troubleshoot", printer_troubleshooting_power_troubleshoot),
  ("power_issue", printer_troubleshooting_power_issue),
  ("test_cable", printer_troubleshooting_test_cable),
  ("check_connection", printer_troubleshooting_check_connection),
  ("check_usb", printer_troubleshooting_check_usb),
  ("usb_troubleshoot", printer_troubleshooting_usb_troubleshoot),
  ("check_wifi_printer", printer_troubleshooting_check_wifi_printer),
  ("wifi_printer_setup", printer_troubleshooting_wifi_printer_setup),
  ("wifi_connect_printer", printer_troubleshooting_wifi_connect_printer),
  ("wifi_password_help", printer_troubleshooting_wifi_password_help),
  ("wifi_printer_help", printer_troubleshooting_wifi_printer_help),
  ("add_printer_computer", printer_troubleshooting_add_printer_computer),
  ("driver_install", printer_troubleshooting_driver_install),
  ("test_print", printer_troubleshooting_test_print),
  ("print_troubleshoot", printer_troubleshooting_print_troubleshoot),
  ("paper_issue", printer_troubleshooting_paper_issue),
  ("ink_issue", printer_troubleshooting_ink_issue),
  ("replace_cartridge", printer_troubleshooting_replace_cartridge),
  ("paper_jam", printer_troubleshooting_paper_jam),
  ("paper_jam_help", printer_troubleshooting_paper_jam_help),
  ("print_quality", printer_troubleshooting_print_quality),
  ("clean_heads", printer_troubleshooting_clean_heads),
  ("deep_clean", printer_troubleshooting_deep_clean),
  ("escalate_support", printer_troubleshooting_escalate_support),
  ("success", printer_troubleshooting_success)]⟩

/-- The `email_configuration` flow: its steps keyed by id, in declaration order. -/
def email_configuration_flow : Flow := ⟨[
  ("start", email_configuration_start),
  ("first_time_setup", email_configuration_first_time_setup),
  ("gmail_setup", email_configuration_gmail_setup),
  ("gmail_outlook", email_configuration_gmail_outlook),
  ("gmail_outlook_login", email_configuration_gmail_outlook_login),
  ("gmail_auth_problem", email_configuration_gmail_auth_problem),
  ("gmail_app_password", email_configuration_gmail_app_password),
  ("outlook_setup", email_configuration_outlook_setup),
  ("corporate_setup", email_configuration_corporate_setup),
  ("contact_it_support", email_configuration_contact_it_support),
  ("test_email_send", email_configuration_test_email_send),
  ("email_stopped", email_configuration_email_stopped),
  ("password_problem", email_configuration_password_problem),
  ("send_problem", email_configuration_send_problem),
  ("receive_problem", email_configuration_receive_problem),
  ("escalate_support", email_configuration_escalate_support),
  ("success", email_configuration_success)]⟩

/-- The interactive flow catalog, in declaration order. -/
def interactive_flows : List (String × Flow) := [
  ("password_recovery", password_recovery_flow),
  ("wifi_troubleshooting", wifi_troubleshooting_flow),
  ("printer_troubleshooting", printer_troubleshooting_flow),
  ("email_configuration", email_configuration_flow)]

/-! ### Session store and dialogue driver -/

/-- Lookup in an insertion-ordered association list (Python `dict` access). -/
def alistLookup {α : Type} (l : List (String × α)) (k : String) : Option α :=
  (l.find? (fun p => p.1 == k)).map (fun p => p.2)

/-- `self.interactive_flows[name]`. -/
def flowsLookup (name : String) : Option Flow := alistLookup interactive_flows name

/-- The step dictionary access `flow[steps][sid]`. -/
def stepsLookup (flow : Flow) (sid : String) : Option FlowStep := alistLookup flow.steps sid

/-- Step lookup through the catalog: flow name, then step id. -/
def catalogStep (flow_name sid : String) : Option FlowStep :=
  (flowsLookup flow_name).bind (fun flow => stepsLookup flow sid)

/-- One user entry of `conversation_context`: the dict written by
`start_interactive_flow` (keys `flow_name`, `current_step`, `state`) to which
`process_interactive_response` later adds `solution`. -/
structure UserContext where
  flow_name : String
  current_step : String
  state : String
  solution : Option String := none
deriving DecidableEq

/-- The `conversation_context` dictionary: user id to context. -/
abbrev Store := List (String × UserContext)

/-- Python `dict` read. -/
def storeLookup (s : Store) (k : String) : Option UserContext := alistLookup s k

/-- Python `dict` assignment: replace in place when the key is present,
append otherwise. -/
def storeInsert (s : Store) (k : String) (v : UserContext) : Store :=
  match s with
  | [] => [(k, v)]
  | p :: rest => if p.1 == k then (k, v) :: rest else p :: storeInsert rest k v

/-- Python `del`. -/
def storeErase (s : Store) (k : String) : Store := s.filter (fun p => !(p.1 == k))

/-- The scan of `expected_responses` in insertion order performed by
`process_interactive_response`: the first trigger that is a substring of the
lowered reply selects its next step id. -/
def findTrigger (resps : List (String × String)) (reply : String) : Option String :=
  (resps.find? (fun p => strContains reply p.1)).map (fun p => p.2)

/-- `LogicalInferenceEngine.start_interactive_flow`: an unknown flow name
yields a descriptive message; otherwise the context of the user is (re)initialized
at the `start` step and the start message returned.  `none` models an uncaught
`KeyError` (a flow without a `start` step, which this catalog never has). -/
def start_interactive_flow (store : Store) (flow_name user_id : String) :
    Option (String × Store) :=
  match flowsLookup flow_name with
  | none => some ("Fluxo \x27" ++ flow_name ++ "\x27 não encontrado.", store)
  | some flow =>
    let store' := storeInsert store user_id
      { flow_name := flow_name, current_step := "start", state := "interactive_flow" }
    match stepsLookup flow "start" with
    | none => none
    | some start_step => some (start_step.message, store')

/-- `LogicalInferenceEngine.process_interactive_response`.  `none` models the
uncaught `KeyError` raised by `flow[steps][current_step]` when the stored
current step id is absent from the flow.  Note that the context is updated to
the chosen next step BEFORE that step is checked for existence, exactly as in
the source: the `Erro` branch returns a store already pointing at the missing
id. -/
def process_interactive_response (store : Store) (user_response user_id : String) :
    Option (String × Store) :=
  match storeLookup store user_id with
  | none => some ("Erro: Contexto de conversa não encontrado.", store)
  | some context =>
    match flowsLookup context.flow_name with
    | none => some ("Erro: Fluxo não encontrado.", store)
    | some flow =>
      match stepsLookup flow context.current_step with
      | none => none
      | some step_data =>
        match findTrigger step_data.expected_responses (lowerStrip user_response) with
        | none =>
          some (step_data.fallback_message.getD "Não entendi sua resposta. Pode tentar novamente?", store)
        | some next_step =>
          match stepsLookup flow next_step with
          | none =>
            some ("Erro: Passo \x27" ++ next_step ++ "\x27 não encontrado no fluxo.",
              storeInsert store user_id { context with current_step := next_step })
          | some next_step_data =>
            match next_step_data.solution with
            | some sol =>
              some (next_step_data.message,
                storeInsert store user_id
                  { context with
                    current_step := next_step
                    state := "post_diagnostic"
                    solution := some sol })
            | none =>
              some (next_step_data.message,
                storeInsert store user_id { context with current_step := next_step })


/-! ### The chatbot driver (`EnhancedChatbot.process_message`) -/

/-- The outward response object: text, type tag and confidence. -/
structure ChatResponse where
  response : String
  type : String
  confidence : ℚ
deriving DecidableEq

/-- The affirmative word list scanned in the post-diagnostic state. -/
def affirmative_words : List String := ["sim", "yes", "claro", "quero", "preciso", "gostaria"]

/-- The negative/closing word list scanned in the post-diagnostic state. -/
def negative_words : List String := ["nao", "no", "obrigado", "tchau", "ate logo", "valeu"]

/-- The intent-to-flow mapping of `process_message`. -/
def flow_mapping : List (String × String) := [
  ("wifi", "wifi_troubleshooting"),
  ("senha", "password_recovery"),
  ("impressora", "printer_troubleshooting"),
  ("email", "email_configuration"),
  ("diagnostic_wifi", "wifi_troubleshooting"),
  ("diagnostic_senha", "password_recovery"),
  ("diagnostic_impressora", "printer_troubleshooting"),
  ("diagnostic_email", "email_configuration")]

/-- The menu returned when an affirmative reply is given in the
post-diagnostic state. -/
def menu_response : String :=
  "Ótimo! Como posso ajudá-lo agora? Posso auxiliar com:\n\n• Configuração de Wi-Fi\n• Redefinição de senhas\n• Problemas com impressora\n• Configuração de email\n\nOu digite \x27diagnóstico\x27 seguido do problema para um atendimento personalizado."

/-- The farewell returned when a negative reply is given in the
post-diagnostic state. -/
def farewell_post_response : String :=
  "Foi um prazer ajudá-lo! Se precisar de mais alguma coisa, estarei aqui. Tenha um ótimo dia! 😊"

/-- The clarification prompt returned when a post-diagnostic reply matches
neither word list. -/
def clarification_response : String :=
  "Desculpe, não entendi. Você gostaria de mais ajuda? Responda \x27sim\x27 para continuar ou \x27não\x27 para encerrar o atendimento."

/-- The canned greeting response. -/
def greeting_response : String :=
  "Olá! Sou seu assistente de suporte técnico com IA avançada. Como posso ajudá-lo hoje?\n\nPosso auxiliar com:\n• Configuração de Wi-Fi\n• Redefinição de senhas\n• Problemas com impressora\n• Configuração de email"

/-- The canned farewell response. -/
def farewell_response : String := "Obrigado por usar nosso suporte! Tenha um ótimo dia!"

/-- Python percent-style `.1f` formatting for the nonnegative confidences that reach
the fallback text: scale by ten and round half to even. -/
def formatConf (q : ℚ) : String :=
  let n10 : Int := q.num * 10
  let whole : Int := n10 / (q.den : Int)
  let rem : Int := n10 % (q.den : Int)
  let r : Int :=
    if (q.den : Int) < 2 * rem then whole + 1
    else if 2 * rem < (q.den : Int) then whole
    else if whole % 2 = 0 then whole else whole + 1
  toString (r / 10) ++ "." ++ toString (r % 10)

/-- The tail of `process_message` when no interactive flow was started: the
canned greeting and farewell replies, then the keyword-scan fallback (one
topic credit per topic whose keyword list meets the tokens, mirroring the
inner loop with `break`). -/
def respond_other (store : Store) (message intent : String) (confidence : ℚ) :
    Option (ChatResponse × Store) :=
  if intent = "greeting" then
    some ({ response := greeting_response, type := "greeting", confidence := confidence }, store)
  else if intent = "farewell" then
    some ({ response := farewell_response, type := "farewell", confidence := confidence }, store)
  else
    let tokens := preprocess_text message
    let recognized_topics := knowledge_base.foldl (fun acc p =>
      if p.2.keywords.any (fun keyword => decide (keyword ∈ tokens)) then acc ++ [p.1] else acc) []
    if recognized_topics.isEmpty then
      some ({ response := "Desculpe, não consegui entender sua pergunta com confiança suficiente (confiança: " ++ formatConf confidence ++ ").\n\nPosso ajudar com:\n• Configuração de Wi-Fi\n• Redefinição de senhas\n• Problemas com impressora\n• Configuração de email\n\nPode reformular sua pergunta ou ser mais específico?",
              type := "unknown", confidence := confidence }, store)
    else
      some ({ response := "Não entendi completamente, mas notei que você mencionou algo sobre " ++ joinWith ", " recognized_topics ++ ". Você está com problemas relacionados a isso?\n\nPosso ajudar com: configuração de Wi-Fi, redefinição de senhas, problemas com impressora ou configuração de email.",
              type := "unknown", confidence := confidence }, store)

/-- The classification part of `process_message`: classify the message, start
the mapped interactive flow when the intent is a topic or a `diagnostic_`
intent, otherwise fall through to the canned replies. -/
def classify_and_respond (store : Store) (message user_id : String) :
    Option (ChatResponse × Store) :=
  let ic := classify_intent_advanced message
  if ic.1 = "wifi" ∨ ic.1 = "senha" ∨ ic.1 = "impressora" ∨ ic.1 = "email"
      ∨ "diagnostic_".data.isPrefixOf ic.1.data then
    match alistLookup flow_mapping ic.1 with
    | some flow_name =>
      (start_interactive_flow store flow_name user_id).map (fun rs =>
        ({ response := rs.1, type := "interactive_flow_start", confidence := 3 }, rs.2))
    | none => respond_other store message ic.1 ic.2
  else respond_other store message ic.1 ic.2

/-- `EnhancedChatbot.process_message`: the single entry point.  An active
`interactive_flow` context routes to `process_interactive_response`; a
`post_diagnostic` context scans the lowered message for affirmative then
negative words (deleting the session on either) and otherwise returns a
clarification with the session kept; with no active context (or a context in
any other state) the message is classified.  `none` models an exception
escaping the core. -/
def process_message (store : Store) (message user_id : String) :
    Option (ChatResponse × Store) :=
  let message_lower := lowerStrip message
  match storeLookup store user_id with
  | some context =>
    if context.state = "interactive_flow" then
      (process_interactive_response store message user_id).map (fun rs =>
        ({ response := rs.1, type := "interactive_flow", confidence := 3 }, rs.2))
    else if context.state = "post_diagnostic" then
      if affirmative_words.any (fun word => strContains message_lower word) then
        some ({ response := menu_response, type := "menu", confidence := 3 },
          storeErase store user_id)
      else if negative_words.any (fun word => strContains message_lower word) then
        some ({ response := farewell_post_response, type := "farewell", confidence := 3 },
          storeErase store user_id)
      else
        some ({ response := clarification_response, type := "clarification", confidence := 3 },
          store)
    else classify_and_respond store message user_id
  | none => classify_and_respond store message user_id


/-! ### Catalog integrity (the claimed invariant) -/

/-- The claimed per-flow invariant: every next step id declared in any
trigger of any step of the flow names an existing step of the same flow. -/
def flowIntegrity (flow : Flow) : Bool :=
  flow.steps.all (fun s =>
    s.2.expected_responses.all (fun r => flow.steps.any (fun q => q.1 == r.2)))

/-- The claimed invariant over the whole catalog. -/
def catalogIntegrity : Bool := interactive_flows.all (fun f => flowIntegrity f.2)

/-- C1: the claim states that every next-step-id declared in any trigger
mapping resolves to an existing step of the same flow, for every flow of the
catalog.  The catalog violates this: `catalogIntegrity` is false, and
concretely the `start` step of `printer_troubleshooting` maps the trigger
`nao reconhece` to `connection_issue`, which is not a step of that flow.  The
`password_recovery` flow is the only flow of the catalog that satisfies the
claimed invariant. -/
theorem catalog_integrity_violated :
    catalogIntegrity = false ∧
    (catalogStep "printer_troubleshooting" "start").map
      (fun st => findTrigger st.expected_responses "nao reconhece") =
        some (some "connection_issue") ∧
    catalogStep "printer_troubleshooting" "connection_issue" = none ∧
    flowIntegrity password_recovery_flow = true ∧
    flowIntegrity wifi_troubleshooting_flow = false ∧
    flowIntegrity printer_troubleshooting_flow = false ∧
    flowIntegrity email_configuration_flow = false := by decide

/-- C2: the claim states that `process_message` never lets an exception
escape, for every reachable session state.  It does: starting the printer
flow (message `diagnostico impressora`), answering `nao reconhece` moves the
session to the nonexistent step `connection_issue` while returning an error
message, and the NEXT message dereferences `flow[steps][current_step]`
and raises an uncaught `KeyError` (modelled by `none`). -/
theorem process_message_uncaught_exception :
    (process_message [] "diagnostico impressora" "u").map Prod.snd =
      some [("u", { flow_name := "printer_troubleshooting", current_step := "start",
                    state := "interactive_flow" })] ∧
    (process_message
        [("u", { flow_name := "printer_troubleshooting", current_step := "start",
                 state := "interactive_flow" })] "nao reconhece" "u").map Prod.snd =
      some [("u", { flow_name := "printer_troubleshooting", current_step := "connection_issue",
                    state := "interactive_flow" })] ∧
    process_message
      [("u", { flow_name := "printer_troubleshooting", current_step := "connection_issue",
               state := "interactive_flow" })] "sim" "u" = none := by decide

/-- C3 (counterexample): the claim states that an unmatched in-flow reply
increments a consecutive-fallback counter, that the second consecutive
unmatched reply resets it and yields a generic try-again message distinct
from the trigger-listing guidance of the first.  In the code there is no
counter: an unmatched reply (here `xyz` at the `start` step of
`password_recovery`) returns the own fallback message of the step and leaves the
store COMPLETELY unchanged, so a second unmatched reply is processed from the
identical state and yields the identical message. -/
theorem in_flow_fallback_counterexample :
    process_message
      [("u", { flow_name := "password_recovery", current_step := "start",
               state := "interactive_flow" })] "xyz" "u" =
    some ({ response := "Não entendi sua resposta. Você quer recuperar o acesso à sua conta? Responda \x27sim\x27 ou \x27não\x27.",
            type := "interactive_flow", confidence := 3 },
      [("u", { flow_name := "password_recovery", current_step := "start",
               state := "interactive_flow" })]) := by decide

/-- A post-resolution session: the state reached by completing the
`password_recovery` flow at its terminal `success` step. -/
def post_store : Store :=
  [("u", { flow_name := "password_recovery", current_step := "success",
           state := "post_diagnostic",
           solution := some "Senha redefinida com sucesso. Usuário conseguiu acessar a conta." })]

/-- C4: the claim states that reaching a terminal-outcome step switches the
session to post-resolution storing the outcome text (true: first conjunct, at
`test_login` with reply `sim`), that a subsequent `sim` deletes the session
and returns the menu (true: second conjunct), and that a subsequent `não`
deletes the session and returns the farewell.  The last part is FALSE: the
negative word list of `process_message` holds only the unaccented `nao`, and
the message is lowered but not accent-folded in this branch, so the reply
`não` matches neither word list, returns the clarification prompt and keeps
the session (third conjunct) — even though that very prompt instructs the
user to answer `não` to close.  The unaccented `nao` behaves as claimed
(fourth conjunct). -/
theorem post_resolution_nao_divergence :
    process_message
      [("u", { flow_name := "password_recovery", current_step := "test_login",
               state := "interactive_flow" })] "sim" "u" =
      some ({ response := password_recovery_success.message, type := "interactive_flow",
              confidence := 3 }, post_store) ∧
    process_message post_store "sim" "u" =
      some ({ response := menu_response, type := "menu", confidence := 3 }, []) ∧
    process_message post_store "não" "u" =
      some ({ response := clarification_response, type := "clarification", confidence := 3 },
        post_store) ∧
    process_message post_store "nao" "u" =
      some ({ response := farewell_post_response, type := "farewell", confidence := 3 }, []) := by
  decide

/-! ### Structural lemmas about the store and the trigger scan -/

theorem storeLookup_insert (s : Store) (k : String) (v : UserContext) :
    storeLookup (storeInsert s k v) k = some v := by
  induction s with
  | nil => simp [storeInsert, storeLookup, alistLookup]
  | cons p rest ih =>
    by_cases h : p.1 == k
    · simp [storeInsert, storeLookup, alistLookup, h]
    · simpa [storeInsert, storeLookup, alistLookup, h] using ih

/-- The trigger scan finds the first declared trigger that is a substring of
the reply: any declaration decomposed as earlier non-matching triggers, a
matching trigger `(t, n)`, and arbitrary later triggers, scans to `n`. -/
theorem findTrigger_first (pre post : List (String × String)) (t n reply : String)
    (hpre : ∀ p ∈ pre, strContains reply p.1 = false)
    (ht : strContains reply t = true) :
    findTrigger (pre ++ (t, n) :: post) reply = some n := by
  induction pre with
  | nil => simp [findTrigger, ht]
  | cons p rest ih =>
    have hp : strContains reply p.1 = false := hpre p (by simp)
    have hrest : ∀ q ∈ rest, strContains reply q.1 = false :=
      fun q hq => hpre q (by simp [hq])
    simpa [findTrigger, hp] using ih hrest

/-- C3 (amended): whenever a session is in a flow and the reply matches no
trigger of the current step, the own fallback message of the step (or the default
apology when the step declares none) is returned and the session — store,
flow, step and state — is left unchanged; there is no fallback counter and no
threshold, so every consecutive unmatched reply at a step yields the same
message. -/
theorem in_flow_fallback_amended (store : Store) (msg uid : String) (ctx : UserContext)
    (flow : Flow) (st : FlowStep)
    (h1 : storeLookup store uid = some ctx) (h2 : ctx.state = "interactive_flow")
    (h3 : flowsLookup ctx.flow_name = some flow)
    (h4 : stepsLookup flow ctx.current_step = some st)
    (h5 : findTrigger st.expected_responses (lowerStrip msg) = none) :
    process_message store msg uid =
      some ({ response := st.fallback_message.getD "Não entendi sua resposta. Pode tentar novamente?",
              type := "interactive_flow", confidence := 3 }, store) := by
  simp [process_message, process_interactive_response, h1, h2, h3, h4, h5]

/-- C3 (amended, witness): the concrete instance of the unmatched reply `xyz`
at the `start` step of `password_recovery`. -/
theorem in_flow_fallback_amended_witness :
    process_message
      [("u", { flow_name := "password_recovery", current_step := "start",
               state := "interactive_flow" })] "xyz" "u" =
      some ({ response := password_recovery_start.fallback_message.getD "Não entendi sua resposta. Pode tentar novamente?",
              type := "interactive_flow", confidence := 3 },
        [("u", { flow_name := "password_recovery", current_step := "start",
                 state := "interactive_flow" })]) :=
  in_flow_fallback_amended _ "xyz" "u"
    { flow_name := "password_recovery", current_step := "start", state := "interactive_flow" }
    password_recovery_flow password_recovery_start
    (by decide) rfl (by decide) (by decide) (by decide)

/-- C5 (amended): in the post-resolution state, any reply containing (as a
substring of its lowered form) no affirmative word and no negative word is
answered with the clarification prompt asking for yes/no and the session is
left unchanged; the classifier is never consulted in this state. -/
theorem post_resolution_clarification (store : Store) (msg uid : String) (ctx : UserContext)
    (h1 : storeLookup store uid = some ctx) (h2 : ctx.state = "post_diagnostic")
    (h3 : affirmative_words.any (fun word => strContains (lowerStrip msg) word) = false)
    (h4 : negative_words.any (fun word => strContains (lowerStrip msg) word) = false) :
    process_message store msg uid =
      some ({ response := clarification_response, type := "clarification", confidence := 3 },
        store) := by
  have hne : ctx.state ≠ "interactive_flow" := by rw [h2]; decide
  simp [process_message, h1, h2, hne, h3, h4]

/-- C5 (amended, witness): the concrete instance of the reply
`esqueci minha senha` in a post-resolution session. -/
theorem post_resolution_clarification_witness :
    process_message post_store "esqueci minha senha" "u" =
      some ({ response := clarification_response, type := "clarification", confidence := 3 },
        post_store) :=
  post_resolution_clarification post_store "esqueci minha senha" "u"
    { flow_name := "password_recovery", current_step := "success", state := "post_diagnostic",
      solution := some "Senha redefinida com sucesso. Usuário conseguiu acessar a conta." }
    (by decide) rfl (by decide) (by decide)

/-- C6: when a session is in a flow, the triggers of the current step are scanned
in declared order; the first trigger that is a substring of the lowered raw
reply wins (substring containment, not token equality), the current step of
the session is set to the mapped next step, and the message of that step is returned.
The hypothesis decomposes the declaration into earlier triggers that do not
occur in the reply and the first one that does; an earlier-declared trigger
occurring anywhere inside the reply therefore shadows all later ones. -/
theorem trigger_first_match (store : Store) (msg uid : String) (ctx : UserContext)
    (flow : Flow) (st st' : FlowStep) (t n : String) (pre post : List (String × String))
    (h1 : storeLookup store uid = some ctx) (h2 : ctx.state = "interactive_flow")
    (h3 : flowsLookup ctx.flow_name = some flow)
    (h4 : stepsLookup flow ctx.current_step = some st)
    (hsplit : st.expected_responses = pre ++ (t, n) :: post)
    (hpre : ∀ p ∈ pre, strContains (lowerStrip msg) p.1 = false)
    (ht : strContains (lowerStrip msg) t = true)
    (h6 : stepsLookup flow n = some st') :
    process_message store msg uid =
      some ({ response := st'.message, type := "interactive_flow", confidence := 3 },
        storeInsert store uid
          { ctx with
            current_step := n
            state := if st'.solution.isSome then "post_diagnostic" else ctx.state
            solution := if st'.solution.isSome then st'.solution else ctx.solution }) := by
  have hft : findTrigger st.expected_responses (lowerStrip msg) = some n := by
    rw [hsplit]; exact findTrigger_first pre post t n _ hpre ht
  cases hsol : st'.solution with
  | none => simp [process_message, process_interactive_response, h1, h2, h3, h4, hft, h6, hsol]
  | some sol => simp [process_message, process_interactive_response, h1, h2, h3, h4, hft, h6, hsol]

/-- C6 (witness): at the `check_email` step of `password_recovery` the reply
`nao chegou` is captured by the earlier-declared trigger `chegou` (a substring
of the reply), which shadows the later, more specific trigger `nao chegou`:
the session moves to `click_link`, not to `email_troubleshoot`. -/
theorem trigger_first_match_witness :
    process_message
      [("u", { flow_name := "password_recovery", current_step := "check_email",
               state := "interactive_flow" })] "nao chegou" "u" =
      some ({ response := password_recovery_click_link.message, type := "interactive_flow",
              confidence := 3 },
        [("u", { flow_name := "password_recovery", current_step := "click_link",
                 state := "interactive_flow" })]) :=
  trigger_first_match _ "nao chegou" "u"
    { flow_name := "password_recovery", current_step := "check_email",
      state := "interactive_flow" }
    password_recovery_flow password_recovery_check_email password_recovery_click_link
    "chegou" "click_link"
    [("sim", "click_link"), ("yes", "click_link"), ("recebi", "click_link")]
    [("nao", "email_troubleshoot"), ("não", "email_troubleshoot"),
     ("no", "email_troubleshoot"), ("nao chegou", "email_troubleshoot")]
    (by decide) rfl (by decide) (by decide) (by decide) (by decide) (by decide) (by decide)

/-- C10: when an in-flow reply matches a trigger whose next step id is absent
from the flow, `process_interactive_response` returns the explicit error
message, but only AFTER having overwritten the current step of the session with
the missing id — the session is not rolled back — and every subsequent
message of that user dereferences the dangling id and raises an uncaught
`KeyError` (modelled by `none`). -/
theorem unknown_step_without_rollback (store : Store) (msg uid : String) (ctx : UserContext)
    (flow : Flow) (st : FlowStep) (n : String)
    (h1 : storeLookup store uid = some ctx) (h2 : ctx.state = "interactive_flow")
    (h3 : flowsLookup ctx.flow_name = some flow)
    (h4 : stepsLookup flow ctx.current_step = some st)
    (h5 : findTrigger st.expected_responses (lowerStrip msg) = some n)
    (h6 : stepsLookup flow n = none) :
    process_message store msg uid =
      some ({ response := "Erro: Passo \x27" ++ n ++ "\x27 não encontrado no fluxo.",
              type := "interactive_flow", confidence := 3 },
        storeInsert store uid { ctx with current_step := n }) ∧
    ∀ msg2, process_message (storeInsert store uid { ctx with current_step := n }) msg2 uid =
      none := by
  constructor
  · simp [process_message, process_interactive_response, h1, h2, h3, h4, h5, h6]
  · intro msg2
    have hl : storeLookup (storeInsert store uid { ctx with current_step := n }) uid =
        some { ctx with current_step := n } := storeLookup_insert store uid _
    simp only [h2] at hl
    simp [process_message, process_interactive_response, hl, h2, h3, h6]

/-- C10 (witness): the concrete instance of the dangling transition out of
the `start` step of the printer flow. -/
theorem unknown_step_without_rollback_witness :
    process_message
      [("u", { flow_name := "printer_troubleshooting", current_step := "start",
               state := "interactive_flow" })] "nao reconhece" "u" =
      some ({ response := "Erro: Passo \x27connection_issue\x27 não encontrado no fluxo.",
              type := "interactive_flow", confidence := 3 },
        [("u", { flow_name := "printer_troubleshooting", current_step := "connection_issue",
                 state := "interactive_flow" })]) ∧
    ∀ msg2, process_message
      [("u", { flow_name := "printer_troubleshooting", current_step := "connection_issue",
               state := "interactive_flow" })] msg2 "u" = none :=
  unknown_step_without_rollback _ "nao reconhece" "u"
    { flow_name := "printer_troubleshooting", current_step := "start",
      state := "interactive_flow" }
    printer_troubleshooting_flow printer_troubleshooting_start "connection_issue"
    (by decide) rfl (by decide) (by decide) (by decide) (by decide)

/-- C9: the normalizer is a total function (by construction in this
embedding) and every token it returns is outside the stopword set and at
least two characters long. -/
theorem preprocess_tokens_clean (text token : String) (h : token ∈ preprocess_text text) :
    token ∉ stopwords ∧ 2 ≤ token.length := by
  unfold preprocess_text at h
  simp only [List.mem_filter, decide_eq_true_eq] at h
  exact ⟨h.2.1, h.2.2⟩

/-- C9 (witness): the token `ola` of the input `Olá, mundo!`. -/
theorem preprocess_tokens_clean_witness :
    "ola" ∉ stopwords ∧ 2 ≤ ("ola" : String).length :=
  preprocess_tokens_clean "Olá, mundo!" "ola" (by decide)

/-! ### C8: the similarity reference definition -/

theorem mkRat_eq_div' (n : Int) (d : Nat) : mkRat n d = (n : ℚ) / (d : ℚ) := by
  rw [Rat.mkRat_eq_divInt, Rat.divInt_eq_div]
  push_cast
  rfl

theorem countMatched_eq (set1 set2 : List String) (pred : String → String → Bool) :
    countMatched set1 set2 pred =
      (set1.filter (fun a => set2.any (fun b => pred a b))).length := by
  have aux : ∀ (l : List String) (acc : Nat),
      l.foldl (fun acc token1 =>
          if set2.any (fun token2 => pred token1 token2) then acc + 1 else acc) acc =
        acc + (l.filter (fun a => set2.any (fun b => pred a b))).length := by
    intro l
    induction l with
    | nil => intro acc; simp
    | cons x rest ih =>
      intro acc
      by_cases hx : set2.any (fun b => pred x b)
      · simp only [List.foldl_cons, List.filter_cons, hx, if_pos]
        rw [ih]
        simp only [List.length_cons]
        omega
      · simp only [List.foldl_cons, List.filter_cons, hx, Bool.false_eq_true, if_false]
        rw [ih]
  simpa [countMatched] using aux set1 0

theorem distinctList_ne_nil {α : Type} [DecidableEq α] (l : List α) (h : l ≠ []) :
    distinctList l ≠ [] := by
  induction l with
  | nil => simp at h
  | cons x rest ih =>
    by_cases hx : x ∈ rest
    · have hr : rest ≠ [] := by rintro rfl; simp at hx
      simpa [distinctList, hx] using ih hr
    · simp [distinctList, hx]

/-- The bigram bonus as the claim words it: half the Jaccard index of the
adjacent-token bigram sets when both sequences have at least two tokens,
else 0. -/
def bigramBonusSpec (A B : List String) : ℚ :=
  if 2 ≤ A.length ∧ 2 ≤ B.length then
    let bA := distinctList (A.zip A.tail)
    let bB := distinctList (B.zip B.tail)
    1/2 * (((bA.filter (fun b => decide (b ∈ bB))).length : ℚ) /
      (((bA ++ bB.filter (fun b => decide (b ∉ bA))).length : ℚ)))
  else 0

/-- Similarity as the claim words it (C8): 0.0 when either sequence is empty,
otherwise `min(base + bigram_bonus, 3.0)` with
`base = (2·exact + 1.5·synonym + 0.5·fuzzy_count) / (2·max(|set A|, |set B|))`,
`exact` the number of common distinct tokens, `synonym` and `fuzzy_count` at
most one credit per distinct token of `A` that matches some token of `B`
(synonym-group sharing, respectively edit-ratio at least 0.8 between words of
length at least 3). -/
def similaritySpec (A B : List String) : ℚ :=
  if A.isEmpty || B.isEmpty then 0
  else
    let sA := distinctList A
    let sB := distinctList B
    let exact : ℚ := ((sA.filter (fun a => decide (a ∈ sB))).length : ℚ)
    let syn : ℚ := ((sA.filter (fun a => sB.any (fun b => are_synonyms a b))).length : ℚ)
    let fuz : ℚ := ((sA.filter (fun a => sB.any (fun b => fuzzy_match a b))).length : ℚ)
    let base : ℚ := (2 * exact + 3/2 * syn + 1/2 * fuz) /
      (2 * ((max sA.length sB.length : Nat) : ℚ))
    min (base + bigramBonusSpec A B) 3

theorem bigram_matches_spec (tokens1 tokens2 : List String) :
    calculate_bigram_similarity tokens1 tokens2 = bigramBonusSpec tokens1 tokens2 := by
  unfold calculate_bigram_similarity bigramBonusSpec
  by_cases hlen : tokens1.length < 2 ∨ tokens2.length < 2
  · have hb : (tokens1.length < 2 || tokens2.length < 2) = true := by
      simp only [Bool.or_eq_true, decide_eq_true_eq]; omega
    have hc : ¬(2 ≤ tokens1.length ∧ 2 ≤ tokens2.length) := by omega
    simp [hb, hc]
  · push_neg at hlen
    have hb : (tokens1.length < 2 || tokens2.length < 2) = false := by
      simp only [Bool.or_eq_false_iff, decide_eq_false_iff_not]; omega
    have hc : 2 ≤ tokens1.length ∧ 2 ≤ tokens2.length := by omega
    have hz1 : tokens1.zip tokens1.tail ≠ [] := by
      have : (tokens1.zip tokens1.tail).length = min tokens1.length tokens1.tail.length := by
        simp [List.length_zip]
      intro hnil
      rw [hnil] at this
      simp [List.length_tail] at this
      omega
    have hz2 : tokens2.zip tokens2.tail ≠ [] := by
      have : (tokens2.zip tokens2.tail).length = min tokens2.length tokens2.tail.length := by
        simp [List.length_zip]
      intro hnil
      rw [hnil] at this
      simp [List.length_tail] at this
      omega
    have hd1 : (distinctList (tokens1.zip tokens1.tail)).isEmpty = false := by
      rw [List.isEmpty_eq_false_iff_exists_mem]
      rcases List.exists_mem_of_ne_nil _ (distinctList_ne_nil _ hz1) with ⟨x, hx⟩
      exact ⟨x, hx⟩
    have hd2 : (distinctList (tokens2.zip tokens2.tail)).isEmpty = false := by
      rw [List.isEmpty_eq_false_iff_exists_mem]
      rcases List.exists_mem_of_ne_nil _ (distinctList_ne_nil _ hz2) with ⟨x, hx⟩
      exact ⟨x, hx⟩
    simp only [hb, hd1, hd2, Bool.or_self, Bool.false_eq_true, if_false, if_pos hc]
    rw [qMul_eq, qDivN_eq, qOfNat_eq, mkRat_eq_div']
    push_cast
    ring

/-- C8: `calculate_similarity` coincides with the reference definition stated
by the claim, for all token sequences. -/
theorem similarity_matches_spec (tokens1 tokens2 : List String) :
    calculate_similarity tokens1 tokens2 = similaritySpec tokens1 tokens2 := by
  unfold calculate_similarity similaritySpec
  by_cases hempty : (tokens1.isEmpty || tokens2.isEmpty) = true
  · rw [if_pos hempty, if_pos hempty]
  · rw [if_neg hempty, if_neg hempty]
    rw [bigram_matches_spec]
    simp only [pyMin_eq, qAdd_eq, qDivN_eq, qMul_eq, qOfNat_eq, mkRat_eq_div',
      countMatched_eq]
    push_cast
    ring_nf

/-! ### C7: classification candidacy -/

/-- One step of the candidate-selection fold of `classify_intent_advanced`
(definitionally the lambda of `selectBest`). -/
def selectStep (tokens : List String) (best : Option String × ℚ) (p : String × TopicData) :
    Option String × ℚ :=
  if best.2 < topicScore tokens p.2 ∧ p.2.confidence_threshold ≤ topicScore tokens p.2 then
    (some p.1, topicScore tokens p.2)
  else best

theorem selectBest_eq_foldl (kb : List (String × TopicData)) (tokens : List String) :
    selectBest kb tokens = kb.foldl (selectStep tokens) (none, 0) := rfl

theorem selectStep_le (tokens : List String) (best : Option String × ℚ)
    (p : String × TopicData) : best.2 ≤ (selectStep tokens best p).2 := by
  by_cases h : best.2 < topicScore tokens p.2 ∧
      p.2.confidence_threshold ≤ topicScore tokens p.2
  · rw [selectStep, if_pos h]
    exact h.1.le
  · rw [selectStep, if_neg h]

theorem foldl_select_le (tokens : List String) (kb : List (String × TopicData)) :
    ∀ best : Option String × ℚ, best.2 ≤ (kb.foldl (selectStep tokens) best).2 := by
  induction kb with
  | nil => intro best; simp
  | cons p rest ih =>
    intro best
    rw [List.foldl_cons]
    exact le_trans (selectStep_le tokens best p) (ih _)

theorem foldl_select_ub (tokens : List String) (kb : List (String × TopicData)) :
    ∀ (best : Option String × ℚ) (q : String × TopicData), q ∈ kb →
      q.2.confidence_threshold ≤ topicScore tokens q.2 →
      topicScore tokens q.2 ≤ (kb.foldl (selectStep tokens) best).2 := by
  induction kb with
  | nil => intro best q hq; simp at hq
  | cons p rest ih =>
    intro best q hq hthr
    rw [List.foldl_cons]
    rcases List.mem_cons.mp hq with rfl | hmem
    · by_cases hf : best.2 < topicScore tokens q.2 ∧
          q.2.confidence_threshold ≤ topicScore tokens q.2
      · have hstep : (selectStep tokens best q).2 = topicScore tokens q.2 := by
          rw [selectStep, if_pos hf]
        calc topicScore tokens q.2 = (selectStep tokens best q).2 := hstep.symm
          _ ≤ _ := foldl_select_le tokens rest _
      · have h1 : topicScore tokens q.2 ≤ best.2 :=
          not_lt.mp (fun hlt => hf ⟨hlt, hthr⟩)
        exact le_trans (le_trans h1 (selectStep_le tokens best q))
          (foldl_select_le tokens rest _)
    · exact ih _ q hmem hthr

theorem foldl_select_some (tokens : List String) (kb : List (String × TopicData)) :
    ∀ (acc : Option String × ℚ) (x : String), acc.1 = some x →
      ∃ y, (kb.foldl (selectStep tokens) acc).1 = some y := by
  induction kb with
  | nil => intro acc x h; exact ⟨x, h⟩
  | cons p rest ih =>
    intro acc x h
    rw [List.foldl_cons]
    by_cases hf : acc.2 < topicScore tokens p.2 ∧
        p.2.confidence_threshold ≤ topicScore tokens p.2
    · refine ih _ p.1 ?_
      rw [selectStep, if_pos hf]
    · refine ih _ x ?_
      rw [selectStep, if_neg hf]
      exact h

theorem foldl_select_none_iff (tokens : List String) (kb : List (String × TopicData)) :
    kb.foldl (selectStep tokens) (none, 0) = ((none : Option String), (0 : ℚ)) ↔
      ∀ q ∈ kb, ¬(q.2.confidence_threshold ≤ topicScore tokens q.2 ∧
        0 < topicScore tokens q.2) := by
  constructor
  · induction kb with
    | nil => intro _ q hq; simp at hq
    | cons p rest ih =>
      intro h q hq
      rw [List.foldl_cons] at h
      by_cases hf : ((none : Option String), (0 : ℚ)).2 < topicScore tokens p.2 ∧
          p.2.confidence_threshold ≤ topicScore tokens p.2
      · exfalso
        have hstep : selectStep tokens ((none : Option String), (0 : ℚ)) p =
            (some p.1, topicScore tokens p.2) := by
          rw [selectStep, if_pos hf]
        rw [hstep] at h
        obtain ⟨y, hy⟩ :=
          foldl_select_some tokens rest (some p.1, topicScore tokens p.2) p.1 rfl
        rw [h] at hy
        simp at hy
      · have hstep : selectStep tokens ((none : Option String), (0 : ℚ)) p =
            ((none : Option String), (0 : ℚ)) := by
          rw [selectStep, if_neg hf]
        rw [hstep] at h
        rcases List.mem_cons.mp hq with rfl | hmem
        · exact fun hqual => hf ⟨hqual.2, hqual.1⟩
        · exact ih h q hmem
  · induction kb with
    | nil => intro _; simp
    | cons p rest ih =>
      intro h
      rw [List.foldl_cons]
      have hp := h p (by simp)
      have hstep : selectStep tokens ((none : Option String), (0 : ℚ)) p =
          ((none : Option String), (0 : ℚ)) := by
        rw [selectStep, if_neg]
        exact fun hqual => hp ⟨hqual.2, hqual.1⟩
      rw [hstep]
      exact ih (fun q hq => h q (by simp [hq]))

theorem selectBest_decomp (tokens : List String) :
    ∀ (kb : List (String × TopicData)) (t : String) (c : ℚ),
      kb.foldl (selectStep tokens) (none, 0) = (some t, c) →
      ∃ pre p post, kb = pre ++ p :: post ∧ p.1 = t ∧ topicScore tokens p.2 = c ∧
        p.2.confidence_threshold ≤ c ∧ 0 < c ∧
        (∀ q ∈ pre, ¬(q.2.confidence_threshold ≤ topicScore tokens q.2 ∧
          c ≤ topicScore tokens q.2)) ∧
        (∀ q ∈ post, ¬(q.2.confidence_threshold ≤ topicScore tokens q.2 ∧
          c < topicScore tokens q.2)) := by
  intro kb
  induction kb using List.reverseRecOn with
  | nil => intro t c h; simp at h
  | append_singleton l p ih =>
    intro t c h
    rw [List.foldl_append, List.foldl_cons, List.foldl_nil] at h
    by_cases hf : (l.foldl (selectStep tokens) (none, 0)).2 < topicScore tokens p.2 ∧
        p.2.confidence_threshold ≤ topicScore tokens p.2
    · have hstep : selectStep tokens (l.foldl (selectStep tokens) (none, 0)) p =
          (some p.1, topicScore tokens p.2) := by
        rw [selectStep, if_pos hf]
      rw [hstep] at h
      simp only [Prod.mk.injEq, Option.some.injEq] at h
      obtain ⟨ht, hc⟩ := h
      have hzero : (0 : ℚ) ≤ (l.foldl (selectStep tokens) (none, 0)).2 := by
        simpa using foldl_select_le tokens l (none, 0)
      refine ⟨l, p, [], by simp, ht, hc, hc ▸ hf.2, lt_of_le_of_lt hzero (hc ▸ hf.1), ?_, ?_⟩
      · intro q hq hqual
        have hub : topicScore tokens q.2 ≤ (l.foldl (selectStep tokens) (none, 0)).2 :=
          foldl_select_ub tokens l (none, 0) q hq hqual.1
        exact absurd hqual.2 (not_le.mpr (lt_of_le_of_lt hub (hc ▸ hf.1)))
      · intro q hq; simp at hq
    · have hstep : selectStep tokens (l.foldl (selectStep tokens) (none, 0)) p =
          l.foldl (selectStep tokens) (none, 0) := by
        rw [selectStep, if_neg hf]
      rw [hstep] at h
      obtain ⟨pre, q, post, hsplit, ht, hc, hthr, hpos, hpre, hpost⟩ := ih t c h
      refine ⟨pre, q, post ++ [p], by simp [hsplit], ht, hc, hthr, hpos, hpre, ?_⟩
      intro r hr
      rcases List.mem_append.mp hr with hr1 | hr2
      · exact hpost r hr1
      · have : r = p := by simpa using hr2
        subst this
        intro hqual
        have hbest : (l.foldl (selectStep tokens) (none, 0)).2 = c := by rw [h]
        exact hf ⟨hbest ▸ hqual.2, hqual.1⟩

/-- C7 (amended): characterization of the candidate-selection loop with the
threshold comparison the code actually performs (at least the threshold, not
strictly above it).  The loop returns `(none, 0)` exactly when no topic has a
positive score at least its confidence threshold; otherwise it returns the
earliest-declared topic whose score is maximal among such topics: every
earlier topic fails to reach its threshold or scores strictly less (ties keep
the earlier topic), and every later topic fails its threshold or does not
score strictly more. -/
theorem classify_candidacy_amended (kb : List (String × TopicData)) (tokens : List String) :
    (selectBest kb tokens = (none, 0) ↔
      ∀ q ∈ kb, ¬(q.2.confidence_threshold ≤ topicScore tokens q.2 ∧
        0 < topicScore tokens q.2)) ∧
    (∀ t c, selectBest kb tokens = (some t, c) →
      ∃ pre p post, kb = pre ++ p :: post ∧ p.1 = t ∧ topicScore tokens p.2 = c ∧
        p.2.confidence_threshold ≤ c ∧ 0 < c ∧
        (∀ q ∈ pre, ¬(q.2.confidence_threshold ≤ topicScore tokens q.2 ∧
          c ≤ topicScore tokens q.2)) ∧
        (∀ q ∈ post, ¬(q.2.confidence_threshold ≤ topicScore tokens q.2 ∧
          c < topicScore tokens q.2))) := by
  constructor
  · rw [selectBest_eq_foldl]
    exact foldl_select_none_iff tokens kb
  · intro t c h
    rw [selectBest_eq_foldl] at h
    exact selectBest_decomp tokens kb t c h

/-- A one-topic knowledge base used to instantiate the selection-loop
characterization at a concrete input. -/
def kb_witness : List (String × TopicData) :=
  [("wifi", { keywords := ["wifi"], phrases := ["wifi"], confidence_threshold := mkRat 1 2 })]

/-- C7 (amended, witness): on `kb_witness` and the token list `["wifi"]` the
loop selects `wifi` with score 2, which is at least its threshold 1/2. -/
theorem classify_candidacy_amended_witness :
    ∃ pre p post, kb_witness = pre ++ p :: post ∧ p.1 = "wifi" ∧
      topicScore ["wifi"] p.2 = 2 ∧ p.2.confidence_threshold ≤ 2 ∧ (0 : ℚ) < 2 ∧
      (∀ q ∈ pre, ¬(q.2.confidence_threshold ≤ topicScore ["wifi"] q.2 ∧
        2 ≤ topicScore ["wifi"] q.2)) ∧
      (∀ q ∈ post, ¬(q.2.confidence_threshold ≤ topicScore ["wifi"] q.2 ∧
        2 < topicScore ["wifi"] q.2)) :=
  (classify_candidacy_amended kb_witness ["wifi"]).2 "wifi" 2 (by decide)

/-- The candidate-selection loop as the claim words it (modelled from the
claim text, for comparison with `selectBest`): identical except that a topic
must STRICTLY exceed its confidence threshold to become the new candidate. -/
def selectBestStrict (kb : List (String × TopicData)) (tokens : List String) :
    Option String × ℚ :=
  kb.foldl (fun best p =>
    let final_score := topicScore tokens p.2
    if best.2 < final_score ∧ p.2.confidence_threshold < final_score then (some p.1, final_score)
    else best) (none, 0)

/-- `classify_intent_advanced` as the claim words it (modelled from the claim
text): the same short-circuits, but the strict-threshold selection loop. -/
def classify_intent_claim (text : String) : String × ℚ :=
  let tokens := preprocess_text text
  if greetings.any (fun g => decide (g ∈ tokens)) then ("greeting", 3)
  else if farewells.any (fun f => decide (f ∈ tokens)) then ("farewell", 3)
  else
    match
      if "diagnostico" ∈ tokens then knowledge_base.find? (fun p => decide (p.1 ∈ tokens))
      else none
    with
    | some p => ("diagnostic_" ++ p.1, 3)
    | none =>
      match selectBestStrict knowledge_base tokens with
      | (some intent, score) => (intent, score)
      | (none, _) => ("unknown", 0)

/-- C7 (counterexample): the claim requires the score of a topic to STRICTLY
exceed its confidence threshold.  The code tests `>=`: on the input
`senha minha esqueci` the topic `senha` scores exactly its threshold 3/2 (the
phrase `esqueci minha senha` gives base 9/6 and the permuted order shares no
bigram, so there is no bonus), and the code classifies it as `senha` while
the strict rule of the claim yields `("unknown", 0.0)`. -/
theorem classify_threshold_counterexample :
    classify_intent_advanced "senha minha esqueci" = ("senha", mkRat 3 2) ∧
    (mkRat 3 2 : ℚ) = 3 / 2 ∧
    classify_intent_claim "senha minha esqueci" = ("unknown", 0) := by
  refine ⟨by decide, ?_, by decide⟩
  rw [mkRat_eq_div']
  norm_num

/-- C5 (counterexample): the claim states that a post-resolution reply that
matches neither word list is reclassified and, on a topic match, starts that
flow.  The reply `esqueci minha senha` contains no affirmative and no
negative word, classifies to the flow-eligible topic `senha` (confidence 2)
whose mapped flow exists — yet `process_message` returns the clarification
prompt with the session unchanged: the classifier is never consulted in the
post-resolution state. -/
theorem post_resolution_no_reclassify_counterexample :
    classify_intent_advanced "esqueci minha senha" = ("senha", 2) ∧
    alistLookup flow_mapping "senha" = some "password_recovery" ∧
    process_message post_store "esqueci minha senha" "u" =
      some ({ response := clarification_response, type := "clarification", confidence := 3 },
        post_store) := by
  refine ⟨by decide, by decide, by decide⟩

end AiEngine
